import Mathlib

/-!
Shallow embedding of the FreeRTOS-Cpp header-only binding layer
(https://github.com/jonenz/FreeRTOS-Cpp).

The repository wraps the FreeRTOS C kernel API in C++ classes.  Every wrapper
method is a short inline function that performs (at most) one call into the
kernel and translates arguments and return codes.  The kernel itself is an
external dependency, so each kernel function is modelled as an uninterpreted
operation: a wrapper method is embedded as a small program in a free monad
over the type `KOp` of kernel operations, and the kernel's behaviour is an
arbitrary oracle assigning a response to every operation.  Running a program
against an oracle yields its C++ return value together with the exact list of
operations it performed, which lets us prove how many kernel calls a method
makes, which arguments it passes, and how it translates the results.

Machine types are modelled as follows: `BaseType_t` as `Int` (with
`pdTRUE = pdPASS = 1` and `pdFALSE = pdFAIL = 0`, as in `projdefs.h`),
`TickType_t`, `UBaseType_t`, `size_t` and `uint32_t` as `Nat`, and opaque
kernel handles as `Option Nat` where `none` models `NULL`.
-/

namespace FreeRTOSCpp

/-- Model of `BaseType_t`. -/
abbrev BaseType := Int

/-- Model of `TickType_t`. -/
abbrev TickType := Nat

/-- Model of `UBaseType_t`. -/
abbrev UBaseType := Nat

/-- Model of the `pdFALSE` macro (`projdefs.h`: `( ( BaseType_t ) 0 )`). -/
def pdFALSE : BaseType := 0

/-- Model of the `pdTRUE` macro (`projdefs.h`: `( ( BaseType_t ) 1 )`). -/
def pdTRUE : BaseType := 1

/-- Model of the `pdPASS` macro (`projdefs.h`: `pdTRUE`). -/
def pdPASS : BaseType := 1

/-- Model of the `pdFAIL` macro (`projdefs.h`: `pdFALSE`). -/
def pdFAIL : BaseType := 0

/-- Model of an opaque kernel handle (`SemaphoreHandle_t`, `QueueHandle_t`,
`TaskHandle_t`, `TimerHandle_t`, `EventGroupHandle_t`,
`StreamBufferHandle_t`, `MessageBufferHandle_t`).  `none` models `NULL`. -/
abbrev Handle := Option Nat

/-- Width of `FreeRTOS::EventGroupBase::EventBits`
(`std::bitset<((configUSE_16_BIT_TICKS == 1) ? 8 : 24)>`); we model the
usual 32-bit-tick configuration, giving 24 usable event bits. -/
def eventBitsWidth : Nat := 24

/-- Width of `FreeRTOS::TaskBase::NotificationBits` (`std::bitset<32>`). -/
def notificationBitsWidth : Nat := 32

/-- Model of `FreeRTOS::TaskBase::NotifyAction` (Task.hpp), mirroring the
kernel's `eNotifyAction`; the C++ method bodies cast between the two with a
value-preserving `static_cast`. -/
inductive NotifyAction : Type where
  | noAction
  | setBits
  | increment
  | setValueWithOverwrite
  | setValueWithoutOverwrite
  deriving DecidableEq

/-- Names for the statically allocated data members of the `Static*` wrapper
classes.  A kernel `...CreateStatic` operation records which of the object's
own members had their addresses passed to it. -/
inductive MemberBuf : Type where
  | staticMutex
  | staticRecursiveMutex
  | staticBinarySemaphore
  | staticCountingSemaphore
  | staticQueue
  | queueStorage
  | staticEventGroup
  | taskBuffer
  | taskStack
  | staticTimer
  | staticStreamBuffer
  | streamBufferStorage
  | staticMessageBuffer
  | messageBufferStorage
  deriving DecidableEq

/-- The kernel operations performed by the binding layer, one constructor per
FreeRTOS API function used in the repository's headers, carrying the
arguments the wrapper passes.  A `wokenPassed` flag records whether the
wrapper passed a real `pxHigherPriorityTaskWoken` out-pointer (`true`) or
`NULL` (`false`).  The two extra constructors `taskFunction` and
`timerFunction` mark the invocation of the user-supplied virtual function
from `TaskBase::taskEntry` / `TimerBase::timerEntry`; they are not kernel
calls (see `KOp.isKernelCall`).  `T` is the element type of queue items. -/
inductive KOp (T : Type) : Type where
  -- semphr.h (used by Mutex.hpp and Semaphore.hpp)
  | xSemaphoreCreateMutex
  | xSemaphoreCreateMutexStatic (buf : MemberBuf)
  | xSemaphoreCreateRecursiveMutex
  | xSemaphoreCreateRecursiveMutexStatic (buf : MemberBuf)
  | xSemaphoreCreateBinary
  | xSemaphoreCreateBinaryStatic (buf : MemberBuf)
  | xSemaphoreCreateCounting (maxCount initialCount : UBaseType)
  | xSemaphoreCreateCountingStatic (maxCount initialCount : UBaseType) (buf : MemberBuf)
  | vSemaphoreDelete (h : Handle)
  | xSemaphoreTake (h : Handle) (ticksToWait : TickType)
  | xSemaphoreTakeFromISR (h : Handle) (wokenPassed : Bool)
  | xSemaphoreTakeRecursive (h : Handle) (ticksToWait : TickType)
  | xSemaphoreGive (h : Handle)
  | xSemaphoreGiveFromISR (h : Handle) (wokenPassed : Bool)
  | xSemaphoreGiveRecursive (h : Handle)
  | uxSemaphoreGetCount (h : Handle)
  -- queue.h
  | xQueueCreate (length itemSize : UBaseType)
  | xQueueCreateStatic (length itemSize : UBaseType) (storageBuf queueBuf : MemberBuf)
  | vQueueDelete (h : Handle)
  | xQueueSendToBack (h : Handle) (item : T) (ticksToWait : TickType)
  | xQueueSendToBackFromISR (h : Handle) (item : T) (wokenPassed : Bool)
  | xQueueSendToFront (h : Handle) (item : T) (ticksToWait : TickType)
  | xQueueSendToFrontFromISR (h : Handle) (item : T) (wokenPassed : Bool)
  | xQueueReceive (h : Handle) (ticksToWait : TickType)
  | xQueueReceiveFromISR (h : Handle) (wokenPassed : Bool)
  | uxQueueMessagesWaiting (h : Handle)
  | uxQueueMessagesWaitingFromISR (h : Handle)
  | uxQueueSpacesAvailable (h : Handle)
  | xQueueReset (h : Handle)
  | xQueueOverwrite (h : Handle) (item : T)
  | xQueueOverwriteFromISR (h : Handle) (item : T) (wokenPassed : Bool)
  | xQueuePeek (h : Handle) (ticksToWait : TickType)
  | xQueuePeekFromISR (h : Handle)
  | vQueueAddToRegistry (h : Handle)
  | vQueueUnregisterQueue (h : Handle)
  | pcQueueGetName (h : Handle)
  | xQueueIsQueueFullFromISR (h : Handle)
  | xQueueIsQueueEmptyFromISR (h : Handle)
  -- event_groups.h
  | xEventGroupCreate
  | xEventGroupCreateStatic (buf : MemberBuf)
  | vEventGroupDelete (h : Handle)
  | xEventGroupWaitBits (h : Handle) (bitsToWaitFor : Nat) (clearOnExit waitForAllBits : BaseType) (ticksToWait : TickType)
  | xEventGroupSetBits (h : Handle) (bitsToSet : Nat)
  | xEventGroupSetBitsFromISR (h : Handle) (bitsToSet : Nat) (wokenPassed : Bool)
  | xEventGroupClearBits (h : Handle) (bitsToClear : Nat)
  | xEventGroupClearBitsFromISR (h : Handle) (bitsToClear : Nat)
  | xEventGroupGetBits (h : Handle)
  | xEventGroupGetBitsFromISR (h : Handle)
  | xEventGroupSync (h : Handle) (bitsToSet bitsToWaitFor : Nat) (ticksToWait : TickType)
  -- task.h (TaskBase / Task / StaticTask)
  | xTaskCreate (priority : UBaseType) (stackDepth : Nat)
  | xTaskCreateStatic (priority : UBaseType) (stackDepth : Nat) (stackBuf taskBuf : MemberBuf)
  | vTaskDelete (h : Handle)
  | uxTaskPriorityGet (h : Handle)
  | vTaskPrioritySet (h : Handle) (newPriority : UBaseType)
  | vTaskSuspend (h : Handle)
  | vTaskResume (h : Handle)
  | xTaskResumeFromISR (h : Handle)
  | xTaskAbortDelay (h : Handle)
  | xTaskGetIdleTaskHandle
  | uxTaskGetStackHighWaterMark (h : Handle)
  | uxTaskGetStackHighWaterMark2 (h : Handle)
  | eTaskGetState (h : Handle)
  | pcTaskGetName (h : Handle)
  | xTaskGetHandle
  | xTaskNotifyGiveIndexed (h : Handle) (index : UBaseType)
  | vTaskNotifyGiveIndexedFromISR (h : Handle) (index : UBaseType) (wokenPassed : Bool)
  | xTaskNotifyIndexed (h : Handle) (index : UBaseType) (value : Nat) (action : NotifyAction)
  | xTaskNotifyAndQueryIndexed (h : Handle) (index : UBaseType) (value : Nat) (action : NotifyAction)
  | xTaskNotifyAndQueryIndexedFromISR (h : Handle) (index : UBaseType) (value : Nat) (action : NotifyAction) (wokenPassed : Bool)
  | xTaskNotifyIndexedFromISR (h : Handle) (index : UBaseType) (value : Nat) (action : NotifyAction) (wokenPassed : Bool)
  | xTaskNotifyWaitIndexed (index : UBaseType) (bitsToClearOnEntry bitsToClearOnExit : Nat) (ticksToWait : TickType)
  | xTaskNotifyStateClearIndexed (h : Handle) (index : UBaseType)
  | ulTaskNotifyValueClearIndexed (h : Handle) (index : UBaseType) (bitsToClear : Nat)
  | vTaskDelay (ticksToDelay : TickType)
  | xTaskDelayUntil (previousWakeTime : TickType) (timeIncrement : TickType)
  | ulTaskNotifyTakeIndexed (index : UBaseType) (clearCountOnExit : BaseType) (ticksToWait : TickType)
  | taskFunction (previousWakeTime : TickType)
  -- timers.h
  | xTimerCreate (period : TickType) (autoReload : BaseType)
  | xTimerCreateStatic (period : TickType) (autoReload : BaseType) (buf : MemberBuf)
  | xTimerIsTimerActive (h : Handle)
  | xTimerStart (h : Handle) (blockTime : TickType)
  | xTimerStartFromISR (h : Handle) (wokenPassed : Bool)
  | xTimerStop (h : Handle) (blockTime : TickType)
  | xTimerStopFromISR (h : Handle) (wokenPassed : Bool)
  | xTimerChangePeriod (h : Handle) (newPeriod blockTime : TickType)
  | xTimerChangePeriodFromISR (h : Handle) (newPeriod : TickType) (wokenPassed : Bool)
  | xTimerDelete (h : Handle) (blockTime : TickType)
  | xTimerReset (h : Handle) (blockTime : TickType)
  | xTimerResetFromISR (h : Handle) (wokenPassed : Bool)
  | vTimerSetReloadMode (h : Handle) (autoReload : BaseType)
  | pcTimerGetName (h : Handle)
  | xTimerGetPeriod (h : Handle)
  | xTimerGetExpiryTime (h : Handle)
  | uxTimerGetReloadMode (h : Handle)
  | timerFunction
  -- stream_buffer.h
  | xStreamBufferCreate (size triggerLevel : Nat)
  | xStreamBufferCreateStatic (size triggerLevel : Nat) (storageBuf bufferBuf : MemberBuf)
  | vStreamBufferDelete (h : Handle)
  | xStreamBufferSend (h : Handle) (length : Nat) (ticksToWait : TickType)
  | xStreamBufferSendFromISR (h : Handle) (length : Nat) (wokenPassed : Bool)
  | xStreamBufferReceive (h : Handle) (bufferLength : Nat) (ticksToWait : TickType)
  | xStreamBufferReceiveFromISR (h : Handle) (bufferLength : Nat) (wokenPassed : Bool)
  | xStreamBufferBytesAvailable (h : Handle)
  | xStreamBufferSpacesAvailable (h : Handle)
  | xStreamBufferSetTriggerLevel (h : Handle) (triggerLevel : Nat)
  | xStreamBufferReset (h : Handle)
  | xStreamBufferIsEmpty (h : Handle)
  | xStreamBufferIsFull (h : Handle)
  -- message_buffer.h
  | xMessageBufferCreate (size : Nat)
  | xMessageBufferCreateStatic (size : Nat) (storageBuf bufferBuf : MemberBuf)
  | vMessageBufferDelete (h : Handle)
  | xMessageBufferSend (h : Handle) (length : Nat) (ticksToWait : TickType)
  | xMessageBufferSendFromISR (h : Handle) (length : Nat) (wokenPassed : Bool)
  | xMessageBufferReceive (h : Handle) (bufferLength : Nat) (ticksToWait : TickType)
  | xMessageBufferReceiveFromISR (h : Handle) (bufferLength : Nat) (wokenPassed : Bool)
  | xMessageBufferReset (h : Handle)
  | xMessageBufferIsEmpty (h : Handle)
  | xMessageBufferIsFull (h : Handle)
  | xMessageBufferSpacesAvailable (h : Handle)
  -- task.h, scheduler level (Kernel.hpp)
  | xTaskGetSchedulerState
  | uxTaskGetNumberOfTasks
  | xTaskGetIdleRunTimeCounter
  | xTaskGetTickCount
  | xTaskGetTickCountFromISR
  | taskYIELD
  | taskENTER_CRITICAL
  | taskENTER_CRITICAL_FROM_ISR
  | taskEXIT_CRITICAL
  | taskEXIT_CRITICAL_FROM_ISR (interruptStatus : Nat)
  | taskDISABLE_INTERRUPTS
  | taskENABLE_INTERRUPTS
  | vTaskStartScheduler
  | vTaskEndScheduler
  | vTaskSuspendAll
  | xTaskResumeAll
  | vTaskStepTick (ticksToJump : TickType)
  | xTaskCatchUpTicks (ticksToCatchUp : TickType)

/-- `true` for every operation except the markers for the user-supplied
`taskFunction()` / `timerFunction()` virtual functions. -/
def KOp.isKernelCall {T : Type} : KOp T → Bool
  | KOp.taskFunction _ => false
  | KOp.timerFunction => false
  | _ => true

/-- `true` exactly for the dynamic-allocation create functions, which draw
the kernel object's storage from the FreeRTOS heap; the `...CreateStatic`
variants use caller-provided buffers instead (FreeRTOS API contract, see the
Static Vs Dynamic allocation documentation referenced in the headers). -/
def KOp.usesHeap {T : Type} : KOp T → Bool
  | KOp.xSemaphoreCreateMutex => true
  | KOp.xSemaphoreCreateRecursiveMutex => true
  | KOp.xSemaphoreCreateBinary => true
  | KOp.xSemaphoreCreateCounting _ _ => true
  | KOp.xQueueCreate _ _ => true
  | KOp.xEventGroupCreate => true
  | KOp.xTaskCreate _ _ => true
  | KOp.xTimerCreate _ _ => true
  | KOp.xStreamBufferCreate _ _ => true
  | KOp.xMessageBufferCreate _ => true
  | _ => false

/-- Everything a single kernel call can communicate back to the wrapper:
`ret` is the function's numeric return value (`BaseType_t` status codes and
the like), `woken` the value the kernel stored through
`pxHigherPriorityTaskWoken` (when a pointer was passed), `handleOut` a handle
returned or stored through an out-pointer, `item` the bytes copied into a
caller-supplied item buffer, and `value` any other numeric out-parameter or
numeric return (tick counts, counts, notification values, sizes). -/
structure KResp (T : Type) where
  ret : BaseType
  woken : BaseType
  handleOut : Handle
  item : T
  value : Nat

/-- A wrapper-method body: a finite interaction tree over kernel operations.
`pure a` models returning `a`; `call op k` models performing kernel call
`op` and continuing as `k` applied to the kernel's response. -/
inductive Prog (T : Type) (α : Type) : Type where
  | pure (a : α)
  | call (op : KOp T) (k : KResp T → Prog T α)

/-- A kernel behaviour: an arbitrary assignment of responses to operations. -/
abbrev Oracle (T : Type) := KOp T → KResp T

/-- Run a method body against a kernel oracle, producing the C++ return
value and the ordered list of operations performed. -/
def Prog.run {T α : Type} : Prog T α → Oracle T → α × List (KOp T)
  | Prog.pure a, _ => (a, [])
  | Prog.call op k, o =>
      let rest := Prog.run (k (o op)) o
      (rest.1, op :: rest.2)

/-- The C++ return value of running a method body. -/
def Prog.result {T α : Type} (p : Prog T α) (o : Oracle T) : α := (p.run o).1

/-- The ordered list of operations performed by a method body. -/
def Prog.trace {T α : Type} (p : Prog T α) (o : Oracle T) : List (KOp T) := (p.run o).2

/-- Sequencing of embedded bodies (used where one inline function calls
another, e.g. `TimerBase::~TimerBase` calling `deleteTimer`). -/
def Prog.bind {T α β : Type} : Prog T α → (α → Prog T β) → Prog T β
  | Prog.pure a, f => f a
  | Prog.call op k, f => Prog.call op (fun r => Prog.bind (k r) f)

/-- A body that performs exactly one kernel call `op` and returns `f`
applied to its response: the shape of almost every method in the binding
layer. -/
def kcall {T α : Type} (op : KOp T) (f : KResp T → α) : Prog T α :=
  Prog.call op (fun r => Prog.pure (f r))

@[simp]
theorem run_kcall {T α : Type} (op : KOp T) (f : KResp T → α) (o : Oracle T) :
    (kcall op f).run o = (f (o op), [op]) := rfl

@[simp]
theorem result_kcall {T α : Type} (op : KOp T) (f : KResp T → α) (o : Oracle T) :
    (kcall op f).result o = f (o op) := rfl

@[simp]
theorem trace_kcall {T α : Type} (op : KOp T) (f : KResp T → α) (o : Oracle T) :
    (kcall op f).trace o = [op] := rfl

@[simp]
theorem run_pure {T α : Type} (a : α) (o : Oracle T) :
    (Prog.pure a : Prog T α).run o = (a, []) := rfl

@[simp]
theorem result_pure {T α : Type} (a : α) (o : Oracle T) :
    (Prog.pure a : Prog T α).result o = a := rfl

@[simp]
theorem trace_pure {T α : Type} (a : α) (o : Oracle T) :
    (Prog.pure a : Prog T α).trace o = [] := rfl

@[simp]
theorem result_call {T α : Type} (op : KOp T) (k : KResp T → Prog T α) (o : Oracle T) :
    (Prog.call op k).result o = (k (o op)).result o := rfl

@[simp]
theorem trace_call {T α : Type} (op : KOp T) (k : KResp T → Prog T α) (o : Oracle T) :
    (Prog.call op k).trace o = op :: (k (o op)).trace o := rfl

@[simp]
theorem bind_kcall {T α β : Type} (op : KOp T) (f : KResp T → α) (g : α → Prog T β) :
    Prog.bind (kcall op f) g = Prog.call op (fun r => g (f r)) := rfl

/-! ## MutexBase and RecursiveMutexBase (Mutex.hpp)

`MutexBase` stores a single data member `SemaphoreHandle_t handle = NULL`.
Methods that only read the handle are embedded as functions of the handle
value alone. -/

/-- `MutexBase::isValid`: `return (handle != NULL);` -/
def MutexBase.isValid (handle : Handle) : Bool := handle.isSome

/-- `MutexBase::lock`: `return (xSemaphoreTake(handle, ticksToWait) == pdTRUE);` -/
def MutexBase.lock {T : Type} (handle : Handle) (ticksToWait : TickType) : Prog T Bool :=
  kcall (KOp.xSemaphoreTake handle ticksToWait) (fun r => r.ret == pdTRUE)

/-- `MutexBase::lockFromISR(bool&)`: calls `xSemaphoreTakeFromISR` with a
local `taskWoken` initialised to `pdFALSE`, then sets the by-reference
`higherPriorityTaskWoken` to `true` if `taskWoken == pdTRUE`.  The result
pair is (C++ return value, `higherPriorityTaskWoken` after the call). -/
def MutexBase.lockFromISR {T : Type} (handle : Handle) (higherPriorityTaskWoken : Bool) :
    Prog T (Bool × Bool) :=
  kcall (KOp.xSemaphoreTakeFromISR handle true) (fun r =>
    (r.ret == pdTRUE, if r.woken == pdTRUE then true else higherPriorityTaskWoken))

/-- `MutexBase::lockFromISR()` overload: passes `NULL` for the woken pointer. -/
def MutexBase.lockFromISR' {T : Type} (handle : Handle) : Prog T Bool :=
  kcall (KOp.xSemaphoreTakeFromISR handle false) (fun r => r.ret == pdTRUE)

/-- `MutexBase::unlock`: `return (xSemaphoreGive(handle) == pdTRUE);` -/
def MutexBase.unlock {T : Type} (handle : Handle) : Prog T Bool :=
  kcall (KOp.xSemaphoreGive handle) (fun r => r.ret == pdTRUE)

/-- `MutexBase::~MutexBase`: `vSemaphoreDelete(this->handle);` (unconditional). -/
def MutexBase.destruct {T : Type} (handle : Handle) : Prog T Unit :=
  kcall (KOp.vSemaphoreDelete handle) (fun _ => ())

/-- `RecursiveMutexBase::lock`:
`return (xSemaphoreTakeRecursive(handle, ticksToWait) == pdTRUE);` -/
def RecursiveMutexBase.lock {T : Type} (handle : Handle) (ticksToWait : TickType) : Prog T Bool :=
  kcall (KOp.xSemaphoreTakeRecursive handle ticksToWait) (fun r => r.ret == pdTRUE)

/-- `RecursiveMutexBase::unlock`:
`return (xSemaphoreGiveRecursive(handle) == pdTRUE);` -/
def RecursiveMutexBase.unlock {T : Type} (handle : Handle) : Prog T Bool :=
  kcall (KOp.xSemaphoreGiveRecursive handle) (fun r => r.ret == pdTRUE)

/-- `Mutex::Mutex`: `this->handle = xSemaphoreCreateMutex();`; returns the
stored handle. -/
def Mutex.construct {T : Type} : Prog T Handle :=
  kcall KOp.xSemaphoreCreateMutex (fun r => r.handleOut)

/-- `RecursiveMutex::RecursiveMutex`:
`this->handle = xSemaphoreCreateRecursiveMutex();` -/
def RecursiveMutex.construct {T : Type} : Prog T Handle :=
  kcall KOp.xSemaphoreCreateRecursiveMutex (fun r => r.handleOut)

/-- `StaticMutex::StaticMutex`:
`this->handle = xSemaphoreCreateMutexStatic(&staticMutex);` passing the
address of the `StaticSemaphore_t staticMutex` data member. -/
def StaticMutex.construct {T : Type} : Prog T Handle :=
  kcall (KOp.xSemaphoreCreateMutexStatic MemberBuf.staticMutex) (fun r => r.handleOut)

/-- `StaticRecursiveMutex::StaticRecursiveMutex`:
`this->handle = xSemaphoreCreateRecursiveMutexStatic(&staticRecursiveMutex);` -/
def StaticRecursiveMutex.construct {T : Type} : Prog T Handle :=
  kcall (KOp.xSemaphoreCreateRecursiveMutexStatic MemberBuf.staticRecursiveMutex)
    (fun r => r.handleOut)

/-! ## SemaphoreBase (Semaphore.hpp) -/

/-- `SemaphoreBase::isValid`: `return (handle != NULL);` -/
def SemaphoreBase.isValid (handle : Handle) : Bool := handle.isSome

/-- `SemaphoreBase::getCount`: `return uxSemaphoreGetCount(handle);` -/
def SemaphoreBase.getCount {T : Type} (handle : Handle) : Prog T UBaseType :=
  kcall (KOp.uxSemaphoreGetCount handle) (fun r => r.value)

/-- `SemaphoreBase::take`:
`return (xSemaphoreTake(handle, ticksToWait) == pdTRUE);` -/
def SemaphoreBase.take {T : Type} (handle : Handle) (ticksToWait : TickType) : Prog T Bool :=
  kcall (KOp.xSemaphoreTake handle ticksToWait) (fun r => r.ret == pdTRUE)

/-- `SemaphoreBase::takeFromISR(bool&)`: same pattern as
`MutexBase::lockFromISR`. -/
def SemaphoreBase.takeFromISR {T : Type} (handle : Handle) (higherPriorityTaskWoken : Bool) :
    Prog T (Bool × Bool) :=
  kcall (KOp.xSemaphoreTakeFromISR handle true) (fun r =>
    (r.ret == pdTRUE, if r.woken == pdTRUE then true else higherPriorityTaskWoken))

/-- `SemaphoreBase::takeFromISR()` overload: passes `NULL`. -/
def SemaphoreBase.takeFromISR' {T : Type} (handle : Handle) : Prog T Bool :=
  kcall (KOp.xSemaphoreTakeFromISR handle false) (fun r => r.ret == pdTRUE)

/-- `SemaphoreBase::give`: `return (xSemaphoreGive(handle) == pdTRUE);` -/
def SemaphoreBase.give {T : Type} (handle : Handle) : Prog T Bool :=
  kcall (KOp.xSemaphoreGive handle) (fun r => r.ret == pdTRUE)

/-- `SemaphoreBase::giveFromISR(bool&)`: calls `xSemaphoreGiveFromISR` and
sets the reference to `true` if the kernel wrote `pdTRUE`. -/
def SemaphoreBase.giveFromISR {T : Type} (handle : Handle) (higherPriorityTaskWoken : Bool) :
    Prog T (Bool × Bool) :=
  kcall (KOp.xSemaphoreGiveFromISR handle true) (fun r =>
    (r.ret == pdTRUE, if r.woken == pdTRUE then true else higherPriorityTaskWoken))

/-- `SemaphoreBase::giveFromISR()` overload: passes `NULL`. -/
def SemaphoreBase.giveFromISR' {T : Type} (handle : Handle) : Prog T Bool :=
  kcall (KOp.xSemaphoreGiveFromISR handle false) (fun r => r.ret == pdTRUE)

/-- `SemaphoreBase::~SemaphoreBase`: `vSemaphoreDelete(this->handle);`
(unconditional). -/
def SemaphoreBase.destruct {T : Type} (handle : Handle) : Prog T Unit :=
  kcall (KOp.vSemaphoreDelete handle) (fun _ => ())

/-- `BinarySemaphore::BinarySemaphore`:
`this->handle = xSemaphoreCreateBinary();` -/
def BinarySemaphore.construct {T : Type} : Prog T Handle :=
  kcall KOp.xSemaphoreCreateBinary (fun r => r.handleOut)

/-- `CountingSemaphore::CountingSemaphore`:
`this->handle = xSemaphoreCreateCounting(maxCount, initialCount);` -/
def CountingSemaphore.construct {T : Type} (maxCount initialCount : UBaseType) : Prog T Handle :=
  kcall (KOp.xSemaphoreCreateCounting maxCount initialCount) (fun r => r.handleOut)

/-- `StaticBinarySemaphore::StaticBinarySemaphore`:
`this->handle = xSemaphoreCreateBinaryStatic(&staticBinarySemaphore);` -/
def StaticBinarySemaphore.construct {T : Type} : Prog T Handle :=
  kcall (KOp.xSemaphoreCreateBinaryStatic MemberBuf.staticBinarySemaphore) (fun r => r.handleOut)

/-- `StaticCountingSemaphore::StaticCountingSemaphore`:
`this->handle = xSemaphoreCreateCountingStatic(maxCount, initialCount,
&staticCountingSemaphore);` -/
def StaticCountingSemaphore.construct {T : Type} (maxCount initialCount : UBaseType) :
    Prog T Handle :=
  kcall (KOp.xSemaphoreCreateCountingStatic maxCount initialCount
    MemberBuf.staticCountingSemaphore) (fun r => r.handleOut)

/-! ## QueueBase (Queue.hpp)

`QueueBase<T>` stores a single data member `QueueHandle_t handle = NULL`. -/

/-- `QueueBase::isValid`: `return (handle != NULL);` -/
def QueueBase.isValid (handle : Handle) : Bool := handle.isSome

/-- `QueueBase::sendToBack`:
`return (xQueueSendToBack(handle, &item, ticksToWait) == pdTRUE);` -/
def QueueBase.sendToBack {T : Type} (handle : Handle) (item : T) (ticksToWait : TickType) :
    Prog T Bool :=
  kcall (KOp.xQueueSendToBack handle item ticksToWait) (fun r => r.ret == pdTRUE)

/-- `QueueBase::sendToBackFromISR(bool&, const T&)`: calls
`xQueueSendToBackFromISR` with a local `taskWoken = pdFALSE` and sets the
reference to `true` if the kernel wrote `pdTRUE`; the result is compared
with `pdPASS`. -/
def QueueBase.sendToBackFromISR {T : Type} (handle : Handle) (higherPriorityTaskWoken : Bool)
    (item : T) : Prog T (Bool × Bool) :=
  kcall (KOp.xQueueSendToBackFromISR handle item true) (fun r =>
    (r.ret == pdPASS, if r.woken == pdTRUE then true else higherPriorityTaskWoken))

/-- `QueueBase::sendToBackFromISR(const T&)` overload: passes `NULL`. -/
def QueueBase.sendToBackFromISR' {T : Type} (handle : Handle) (item : T) : Prog T Bool :=
  kcall (KOp.xQueueSendToBackFromISR handle item false) (fun r => r.ret == pdPASS)

/-- `QueueBase::sendToFront`:
`return (xQueueSendToFront(handle, &item, ticksToWait) == pdTRUE);` -/
def QueueBase.sendToFront {T : Type} (handle : Handle) (item : T) (ticksToWait : TickType) :
    Prog T Bool :=
  kcall (KOp.xQueueSendToFront handle item ticksToWait) (fun r => r.ret == pdTRUE)

/-- `QueueBase::sendToFrontFromISR(bool&, const T&)`: same pattern as
`sendToBackFromISR`. -/
def QueueBase.sendToFrontFromISR {T : Type} (handle : Handle) (higherPriorityTaskWoken : Bool)
    (item : T) : Prog T (Bool × Bool) :=
  kcall (KOp.xQueueSendToFrontFromISR handle item true) (fun r =>
    (r.ret == pdPASS, if r.woken == pdTRUE then true else higherPriorityTaskWoken))

/-- `QueueBase::sendToFrontFromISR(const T&)` overload: passes `NULL`. -/
def QueueBase.sendToFrontFromISR' {T : Type} (handle : Handle) (item : T) : Prog T Bool :=
  kcall (KOp.xQueueSendToFrontFromISR handle item false) (fun r => r.ret == pdPASS)

/-- `QueueBase::receive`: declares a local `T buffer`, calls
`xQueueReceive(handle, &buffer, ticksToWait)` and returns
`std::optional<T>(buffer)` if the call returned `pdTRUE`, `std::nullopt`
otherwise.  `r.item` is the value the kernel copied into the buffer. -/
def QueueBase.receive {T : Type} (handle : Handle) (ticksToWait : TickType) :
    Prog T (Option T) :=
  kcall (KOp.xQueueReceive handle ticksToWait) (fun r =>
    if r.ret == pdTRUE then some r.item else none)

/-- `QueueBase::receiveFromISR(bool&)`: combines the optional-result pattern
of `receive` with the `taskWoken` pattern; the result pair is
(`std::optional<T>` return value, `higherPriorityTaskWoken` after the
call). -/
def QueueBase.receiveFromISR {T : Type} (handle : Handle) (higherPriorityTaskWoken : Bool) :
    Prog T (Option T × Bool) :=
  kcall (KOp.xQueueReceiveFromISR handle true) (fun r =>
    (if r.ret == pdTRUE then some r.item else none,
     if r.woken == pdTRUE then true else higherPriorityTaskWoken))

/-- `QueueBase::receiveFromISR()` overload: passes `NULL`. -/
def QueueBase.receiveFromISR' {T : Type} (handle : Handle) : Prog T (Option T) :=
  kcall (KOp.xQueueReceiveFromISR handle false) (fun r =>
    if r.ret == pdTRUE then some r.item else none)

/-- `QueueBase::messagesWaiting`: `return uxQueueMessagesWaiting(handle);` -/
def QueueBase.messagesWaiting {T : Type} (handle : Handle) : Prog T UBaseType :=
  kcall (KOp.uxQueueMessagesWaiting handle) (fun r => r.value)

/-- `QueueBase::messagesWaitingFromISR`:
`return uxQueueMessagesWaitingFromISR(handle);` -/
def QueueBase.messagesWaitingFromISR {T : Type} (handle : Handle) : Prog T UBaseType :=
  kcall (KOp.uxQueueMessagesWaitingFromISR handle) (fun r => r.value)

/-- `QueueBase::spacesAvailable`: `return uxQueueSpacesAvailable(handle);` -/
def QueueBase.spacesAvailable {T : Type} (handle : Handle) : Prog T UBaseType :=
  kcall (KOp.uxQueueSpacesAvailable handle) (fun r => r.value)

/-- `QueueBase::reset`: `xQueueReset(handle);` (return value discarded). -/
def QueueBase.reset {T : Type} (handle : Handle) : Prog T Unit :=
  kcall (KOp.xQueueReset handle) (fun _ => ())

/-- `QueueBase::overwrite`: `xQueueOverwrite(handle, &item);` (void). -/
def QueueBase.overwrite {T : Type} (handle : Handle) (item : T) : Prog T Unit :=
  kcall (KOp.xQueueOverwrite handle item) (fun _ => ())

/-- `QueueBase::overwriteFromISR(bool&, const T&)`: void result, with the
`taskWoken` pattern; the result is `higherPriorityTaskWoken` after the
call. -/
def QueueBase.overwriteFromISR {T : Type} (handle : Handle) (higherPriorityTaskWoken : Bool)
    (item : T) : Prog T Bool :=
  kcall (KOp.xQueueOverwriteFromISR handle item true) (fun r =>
    if r.woken == pdTRUE then true else higherPriorityTaskWoken)

/-- `QueueBase::overwriteFromISR(const T&)` overload: passes `NULL`. -/
def QueueBase.overwriteFromISR' {T : Type} (handle : Handle) (item : T) : Prog T Unit :=
  kcall (KOp.xQueueOverwriteFromISR handle item false) (fun _ => ())

/-- `QueueBase::peek`: same optional-result pattern as `receive`, via
`xQueuePeek`. -/
def QueueBase.peek {T : Type} (handle : Handle) (ticksToWait : TickType) : Prog T (Option T) :=
  kcall (KOp.xQueuePeek handle ticksToWait) (fun r =>
    if r.ret == pdTRUE then some r.item else none)

/-- `QueueBase::peekFromISR`: same optional-result pattern, via
`xQueuePeekFromISR` (which has no woken pointer). -/
def QueueBase.peekFromISR {T : Type} (handle : Handle) : Prog T (Option T) :=
  kcall (KOp.xQueuePeekFromISR handle) (fun r =>
    if r.ret == pdTRUE then some r.item else none)

/-- `QueueBase::addToRegistry`: `vQueueAddToRegistry(handle, name);` (the
name pointer is not modelled). -/
def QueueBase.addToRegistry {T : Type} (handle : Handle) : Prog T Unit :=
  kcall (KOp.vQueueAddToRegistry handle) (fun _ => ())

/-- `QueueBase::unregister`: `vQueueUnregisterQueue(handle);` -/
def QueueBase.unregister {T : Type} (handle : Handle) : Prog T Unit :=
  kcall (KOp.vQueueUnregisterQueue handle) (fun _ => ())

/-- `QueueBase::getName`: `return pcQueueGetName(handle);` (the returned
pointer is modelled as an abstract numeric value). -/
def QueueBase.getName {T : Type} (handle : Handle) : Prog T Nat :=
  kcall (KOp.pcQueueGetName handle) (fun r => r.value)

/-- `QueueBase::isFullFromISR`:
`return (xQueueIsQueueFullFromISR(handle) == pdTRUE);` -/
def QueueBase.isFullFromISR {T : Type} (handle : Handle) : Prog T Bool :=
  kcall (KOp.xQueueIsQueueFullFromISR handle) (fun r => r.ret == pdTRUE)

/-- `QueueBase::isEmptyFromISR`:
`return (xQueueIsQueueEmptyFromISR(handle) == pdTRUE);` -/
def QueueBase.isEmptyFromISR {T : Type} (handle : Handle) : Prog T Bool :=
  kcall (KOp.xQueueIsQueueEmptyFromISR handle) (fun r => r.ret == pdTRUE)

/-- `QueueBase::~QueueBase`: `vQueueDelete(this->handle);` (unconditional). -/
def QueueBase.destruct {T : Type} (handle : Handle) : Prog T Unit :=
  kcall (KOp.vQueueDelete handle) (fun _ => ())

/-- `Queue<T>::Queue(length)`:
`this->handle = xQueueCreate(length, sizeof(T));`; `sizeofT` models
`sizeof(T)`. -/
def Queue.construct {T : Type} (length : UBaseType) (sizeofT : Nat) : Prog T Handle :=
  kcall (KOp.xQueueCreate length sizeofT) (fun r => r.handleOut)

/-- `StaticQueue<T, N>::StaticQueue()`:
`this->handle = xQueueCreateStatic(N, sizeof(T), storage, &staticQueue);`
passing the addresses of the `uint8_t storage[N * sizeof(T)]` and
`StaticQueue_t staticQueue` data members. -/
def StaticQueue.construct {T : Type} (N : UBaseType) (sizeofT : Nat) : Prog T Handle :=
  kcall (KOp.xQueueCreateStatic N sizeofT MemberBuf.queueStorage MemberBuf.staticQueue)
    (fun r => r.handleOut)

/-! ## EventGroupBase (EventGroups.hpp)

`EventGroupBase` stores a single data member `EventGroupHandle_t handle =
NULL`.  `EventBits` (`std::bitset<eventBitsWidth>`) is modelled as a `Nat`;
the `EventBits(x)` conversion keeps the low `eventBitsWidth` bits and
`to_ulong()` is the identity on that range. -/

/-- `EventGroupBase::isValid`: `return (handle != NULL);` -/
def EventGroupBase.isValid (handle : Handle) : Bool := handle.isSome

/-- Model of the `std::bitset<eventBitsWidth>` constructor from an unsigned
long: keeps the low `eventBitsWidth` bits. -/
def EventBits.ofULong (x : Nat) : Nat := x % 2 ^ eventBitsWidth

/-- `EventGroupBase::wait`: calls `xEventGroupWaitBits(handle,
bitsToWaitFor.to_ulong(), clearOnExit ? pdTRUE : pdFALSE, waitForAllBits ?
pdTRUE : pdFALSE, ticksToWait)` and wraps the result in `EventBits`. -/
def EventGroupBase.wait {T : Type} (handle : Handle) (bitsToWaitFor : Nat)
    (clearOnExit waitForAllBits : Bool) (ticksToWait : TickType) : Prog T Nat :=
  kcall (KOp.xEventGroupWaitBits handle bitsToWaitFor
      (if clearOnExit then pdTRUE else pdFALSE)
      (if waitForAllBits then pdTRUE else pdFALSE) ticksToWait)
    (fun r => EventBits.ofULong r.value)

/-- `EventGroupBase::set`: wraps `xEventGroupSetBits(handle,
bitsToSet.to_ulong())` in `EventBits`. -/
def EventGroupBase.set {T : Type} (handle : Handle) (bitsToSet : Nat) : Prog T Nat :=
  kcall (KOp.xEventGroupSetBits handle bitsToSet) (fun r => EventBits.ofULong r.value)

/-- `EventGroupBase::setFromISR(bool&, ...)`: calls
`xEventGroupSetBitsFromISR` with the `taskWoken` pattern; the result is
compared with `pdPASS`. -/
def EventGroupBase.setFromISR {T : Type} (handle : Handle) (higherPriorityTaskWoken : Bool)
    (bitsToSet : Nat) : Prog T (Bool × Bool) :=
  kcall (KOp.xEventGroupSetBitsFromISR handle bitsToSet true) (fun r =>
    (r.ret == pdPASS, if r.woken == pdTRUE then true else higherPriorityTaskWoken))

/-- `EventGroupBase::setFromISR(...)` overload: passes `NULL`. -/
def EventGroupBase.setFromISR' {T : Type} (handle : Handle) (bitsToSet : Nat) : Prog T Bool :=
  kcall (KOp.xEventGroupSetBitsFromISR handle bitsToSet false) (fun r => r.ret == pdPASS)

/-- `EventGroupBase::clear`: wraps `xEventGroupClearBits(handle,
bitsToClear.to_ulong())` in `EventBits`. -/
def EventGroupBase.clear {T : Type} (handle : Handle) (bitsToClear : Nat) : Prog T Nat :=
  kcall (KOp.xEventGroupClearBits handle bitsToClear) (fun r => EventBits.ofULong r.value)

/-- `EventGroupBase::clearFromISR`:
`return (xEventGroupClearBitsFromISR(handle, bitsToClear.to_ulong()) == pdPASS);` -/
def EventGroupBase.clearFromISR {T : Type} (handle : Handle) (bitsToClear : Nat) : Prog T Bool :=
  kcall (KOp.xEventGroupClearBitsFromISR handle bitsToClear) (fun r => r.ret == pdPASS)

/-- `EventGroupBase::get`: wraps `xEventGroupGetBits(handle)` in
`EventBits`. -/
def EventGroupBase.get {T : Type} (handle : Handle) : Prog T Nat :=
  kcall (KOp.xEventGroupGetBits handle) (fun r => EventBits.ofULong r.value)

/-- `EventGroupBase::getFromISR`: wraps `xEventGroupGetBitsFromISR(handle)`
in `EventBits`. -/
def EventGroupBase.getFromISR {T : Type} (handle : Handle) : Prog T Nat :=
  kcall (KOp.xEventGroupGetBitsFromISR handle) (fun r => EventBits.ofULong r.value)

/-- `EventGroupBase::sync`: wraps `xEventGroupSync(handle,
bitsToSet.to_ulong(), bitsToWaitFor.to_ulong(), ticksToWait)` in
`EventBits`. -/
def EventGroupBase.sync {T : Type} (handle : Handle) (bitsToSet bitsToWaitFor : Nat)
    (ticksToWait : TickType) : Prog T Nat :=
  kcall (KOp.xEventGroupSync handle bitsToSet bitsToWaitFor ticksToWait)
    (fun r => EventBits.ofULong r.value)

/-- `EventGroupBase::~EventGroupBase`: `vEventGroupDelete(this->handle);`
(unconditional). -/
def EventGroupBase.destruct {T : Type} (handle : Handle) : Prog T Unit :=
  kcall (KOp.vEventGroupDelete handle) (fun _ => ())

/-- `EventGroup::EventGroup`: `this->handle = xEventGroupCreate();` -/
def EventGroup.construct {T : Type} : Prog T Handle :=
  kcall KOp.xEventGroupCreate (fun r => r.handleOut)

/-- `StaticEventGroup::StaticEventGroup`:
`this->handle = xEventGroupCreateStatic(&staticEventGroup);` -/
def StaticEventGroup.construct {T : Type} : Prog T Handle :=
  kcall (KOp.xEventGroupCreateStatic MemberBuf.staticEventGroup) (fun r => r.handleOut)

/-! ## Kernel namespace (Kernel.hpp) -/

/-- `FreeRTOS::Kernel::getSchedulerState`:
`return static_cast<SchedulerState>(xTaskGetSchedulerState());` (the enum
cast is value-preserving, so the state is modelled by its numeric value). -/
def Kernel.getSchedulerState {T : Type} : Prog T BaseType :=
  kcall KOp.xTaskGetSchedulerState (fun r => r.ret)

/-- `FreeRTOS::Kernel::getNumberOfTasks`:
`return uxTaskGetNumberOfTasks();` -/
def Kernel.getNumberOfTasks {T : Type} : Prog T UBaseType :=
  kcall KOp.uxTaskGetNumberOfTasks (fun r => r.value)

/-- `FreeRTOS::Kernel::getIdleRunTimeCounter`:
`return xTaskGetIdleRunTimeCounter();` -/
def Kernel.getIdleRunTimeCounter {T : Type} : Prog T TickType :=
  kcall KOp.xTaskGetIdleRunTimeCounter (fun r => r.value)

/-- `FreeRTOS::Kernel::getTickCount`: `return xTaskGetTickCount();` -/
def Kernel.getTickCount {T : Type} : Prog T TickType :=
  kcall KOp.xTaskGetTickCount (fun r => r.value)

/-- `FreeRTOS::Kernel::getTickCountFromISR`:
`return xTaskGetTickCountFromISR();` -/
def Kernel.getTickCountFromISR {T : Type} : Prog T TickType :=
  kcall KOp.xTaskGetTickCountFromISR (fun r => r.value)

/-- `FreeRTOS::Kernel::yield`: `taskYIELD();` -/
def Kernel.yield {T : Type} : Prog T Unit :=
  kcall KOp.taskYIELD (fun _ => ())

/-- `FreeRTOS::Kernel::enterCritical`: `taskENTER_CRITICAL();` -/
def Kernel.enterCritical {T : Type} : Prog T Unit :=
  kcall KOp.taskENTER_CRITICAL (fun _ => ())

/-- `FreeRTOS::Kernel::enterCriticalFromISR`:
`return taskENTER_CRITICAL_FROM_ISR();` -/
def Kernel.enterCriticalFromISR {T : Type} : Prog T Nat :=
  kcall KOp.taskENTER_CRITICAL_FROM_ISR (fun r => r.value)

/-- `FreeRTOS::Kernel::exitCritical`: `taskEXIT_CRITICAL();` -/
def Kernel.exitCritical {T : Type} : Prog T Unit :=
  kcall KOp.taskEXIT_CRITICAL (fun _ => ())

/-- `FreeRTOS::Kernel::exitCriticalFromISR`:
`taskEXIT_CRITICAL_FROM_ISR(interruptStatus);` -/
def Kernel.exitCriticalFromISR {T : Type} (interruptStatus : Nat) : Prog T Unit :=
  kcall (KOp.taskEXIT_CRITICAL_FROM_ISR interruptStatus) (fun _ => ())

/-- `FreeRTOS::Kernel::disableInterrupts`: `taskDISABLE_INTERRUPTS();` -/
def Kernel.disableInterrupts {T : Type} : Prog T Unit :=
  kcall KOp.taskDISABLE_INTERRUPTS (fun _ => ())

/-- `FreeRTOS::Kernel::enableInterrupts`: `taskENABLE_INTERRUPTS();` -/
def Kernel.enableInterrupts {T : Type} : Prog T Unit :=
  kcall KOp.taskENABLE_INTERRUPTS (fun _ => ())

/-- `FreeRTOS::Kernel::startScheduler`: `vTaskStartScheduler();` -/
def Kernel.startScheduler {T : Type} : Prog T Unit :=
  kcall KOp.vTaskStartScheduler (fun _ => ())

/-- `FreeRTOS::Kernel::endScheduler`: `vTaskEndScheduler();` -/
def Kernel.endScheduler {T : Type} : Prog T Unit :=
  kcall KOp.vTaskEndScheduler (fun _ => ())

/-- `FreeRTOS::Kernel::suspendAll`: `vTaskSuspendAll();` -/
def Kernel.suspendAll {T : Type} : Prog T Unit :=
  kcall KOp.vTaskSuspendAll (fun _ => ())

/-- `FreeRTOS::Kernel::resumeAll`: `return (xTaskResumeAll() == pdTRUE);` -/
def Kernel.resumeAll {T : Type} : Prog T Bool :=
  kcall KOp.xTaskResumeAll (fun r => r.ret == pdTRUE)

/-- `FreeRTOS::Kernel::stepTick`: `vTaskStepTick(ticksToJump);` -/
def Kernel.stepTick {T : Type} (ticksToJump : TickType) : Prog T Unit :=
  kcall (KOp.vTaskStepTick ticksToJump) (fun _ => ())

/-- `FreeRTOS::Kernel::catchUpTicks`:
`return (xTaskCatchUpTicks(ticksToCatchUp) == pdTRUE);` -/
def Kernel.catchUpTicks {T : Type} (ticksToCatchUp : TickType) : Prog T Bool :=
  kcall (KOp.xTaskCatchUpTicks ticksToCatchUp) (fun r => r.ret == pdTRUE)

/-! ## TaskBase, Task and StaticTask (Task.hpp)

`TaskBase` stores two data members: `TaskHandle_t handle = NULL` and
`TickType_t previousWakeTime = 0`.  Methods that only use the handle are
embedded as functions of the handle; `taskEntry` and `delayUntil`, which
use `previousWakeTime`, take and return the whole object state.
`NotificationBits` (`std::bitset<32>`) is modelled as a `Nat` whose
constructor keeps the low 32 bits and whose `to_ulong()` is the identity. -/

/-- Data members of `FreeRTOS::TaskBase`. -/
structure TaskObj where
  handle : Handle
  previousWakeTime : TickType

/-- Model of the `std::bitset<32>` constructor from an unsigned long. -/
def NotificationBits.ofULong (x : Nat) : Nat := x % 2 ^ notificationBitsWidth

/-- `TaskBase::taskEntry`:
`previousWakeTime = FreeRTOS::Kernel::getTickCount(); taskFunction();`
The `taskFunction` marker op records the `previousWakeTime` value the
member holds when the user-supplied function starts running; the result is
the object state after the entry function. -/
def TaskBase.taskEntry {T : Type} (s : TaskObj) : Prog T TaskObj :=
  Prog.bind Kernel.getTickCount (fun tick =>
    Prog.call (KOp.taskFunction tick) (fun _ => Prog.pure (TaskObj.mk s.handle tick)))

/-- `TaskBase::getPriority`: `return uxTaskPriorityGet(handle);` -/
def TaskBase.getPriority {T : Type} (handle : Handle) : Prog T UBaseType :=
  kcall (KOp.uxTaskPriorityGet handle) (fun r => r.value)

/-- `TaskBase::setPriority`: `vTaskPrioritySet(handle, newPriority);` -/
def TaskBase.setPriority {T : Type} (handle : Handle) (newPriority : UBaseType) : Prog T Unit :=
  kcall (KOp.vTaskPrioritySet handle newPriority) (fun _ => ())

/-- `TaskBase::suspend`: `vTaskSuspend(handle);` -/
def TaskBase.suspend {T : Type} (handle : Handle) : Prog T Unit :=
  kcall (KOp.vTaskSuspend handle) (fun _ => ())

/-- `TaskBase::resume`: `vTaskResume(handle);` -/
def TaskBase.resume {T : Type} (handle : Handle) : Prog T Unit :=
  kcall (KOp.vTaskResume handle) (fun _ => ())

/-- `TaskBase::resumeFromISR`:
`return (xTaskResumeFromISR(handle) == pdTRUE);` -/
def TaskBase.resumeFromISR {T : Type} (handle : Handle) : Prog T Bool :=
  kcall (KOp.xTaskResumeFromISR handle) (fun r => r.ret == pdTRUE)

/-- `TaskBase::abortDelay`: `return (xTaskAbortDelay(handle) == pdPASS);` -/
def TaskBase.abortDelay {T : Type} (handle : Handle) : Prog T Bool :=
  kcall (KOp.xTaskAbortDelay handle) (fun r => r.ret == pdPASS)

/-- `TaskBase::getIdleHandle` (static):
`return xTaskGetIdleTaskHandle();` -/
def TaskBase.getIdleHandle {T : Type} : Prog T Handle :=
  kcall KOp.xTaskGetIdleTaskHandle (fun r => r.handleOut)

/-- `TaskBase::getStackHighWaterMark`:
`return uxTaskGetStackHighWaterMark(handle);` -/
def TaskBase.getStackHighWaterMark {T : Type} (handle : Handle) : Prog T UBaseType :=
  kcall (KOp.uxTaskGetStackHighWaterMark handle) (fun r => r.value)

/-- `TaskBase::getStackHighWaterMark2`:
`return uxTaskGetStackHighWaterMark2(handle);` -/
def TaskBase.getStackHighWaterMark2 {T : Type} (handle : Handle) : Prog T UBaseType :=
  kcall (KOp.uxTaskGetStackHighWaterMark2 handle) (fun r => r.value)

/-- `TaskBase::getState`:
`return static_cast<State>(eTaskGetState(handle));` (value-preserving enum
cast, modelled by the numeric value). -/
def TaskBase.getState {T : Type} (handle : Handle) : Prog T BaseType :=
  kcall (KOp.eTaskGetState handle) (fun r => r.ret)

/-- `TaskBase::getName`: `return pcTaskGetName(handle);` (abstract pointer
value). -/
def TaskBase.getName {T : Type} (handle : Handle) : Prog T Nat :=
  kcall (KOp.pcTaskGetName handle) (fun r => r.value)

/-- `TaskBase::getHandle` (static): `return xTaskGetHandle(name);` -/
def TaskBase.getHandle {T : Type} : Prog T Handle :=
  kcall KOp.xTaskGetHandle (fun r => r.handleOut)

/-- `TaskBase::notifyGive`: `xTaskNotifyGiveIndexed(handle, index);`
(return value discarded). -/
def TaskBase.notifyGive {T : Type} (handle : Handle) (index : UBaseType) : Prog T Unit :=
  kcall (KOp.xTaskNotifyGiveIndexed handle index) (fun _ => ())

/-- `TaskBase::notifyGiveFromISR(bool&, ...)`: calls
`vTaskNotifyGiveIndexedFromISR` (void) with the `taskWoken` pattern; the
result is `higherPriorityTaskWoken` after the call. -/
def TaskBase.notifyGiveFromISR {T : Type} (handle : Handle) (higherPriorityTaskWoken : Bool)
    (index : UBaseType) : Prog T Bool :=
  kcall (KOp.vTaskNotifyGiveIndexedFromISR handle index true) (fun r =>
    if r.woken == pdTRUE then true else higherPriorityTaskWoken)

/-- `TaskBase::notifyGiveFromISR(...)` overload: passes `NULL`. -/
def TaskBase.notifyGiveFromISR' {T : Type} (handle : Handle) (index : UBaseType) : Prog T Unit :=
  kcall (KOp.vTaskNotifyGiveIndexedFromISR handle index false) (fun _ => ())

/-- `TaskBase::notify`: `return (xTaskNotifyIndexed(handle, index,
value.to_ulong(), static_cast<eNotifyAction>(action)) == pdPASS);` -/
def TaskBase.notify {T : Type} (handle : Handle) (action : NotifyAction) (value : Nat)
    (index : UBaseType) : Prog T Bool :=
  kcall (KOp.xTaskNotifyIndexed handle index value action) (fun r => r.ret == pdPASS)

/-- `TaskBase::notifyAndQuery`: calls `xTaskNotifyAndQueryIndexed` with a
local `uint32_t pulNotificationValue` out-parameter and returns
`std::make_pair(result, NotificationBits(pulNotificationValue))`. -/
def TaskBase.notifyAndQuery {T : Type} (handle : Handle) (action : NotifyAction) (value : Nat)
    (index : UBaseType) : Prog T (Bool × Nat) :=
  kcall (KOp.xTaskNotifyAndQueryIndexed handle index value action) (fun r =>
    (r.ret == pdPASS, NotificationBits.ofULong r.value))

/-- `TaskBase::notifyAndQueryFromISR(bool&, ...)`: as `notifyAndQuery` with
the `taskWoken` pattern; the result is ((C++ pair), `hptw` after call). -/
def TaskBase.notifyAndQueryFromISR {T : Type} (handle : Handle)
    (higherPriorityTaskWoken : Bool) (action : NotifyAction) (value : Nat)
    (index : UBaseType) : Prog T ((Bool × Nat) × Bool) :=
  kcall (KOp.xTaskNotifyAndQueryIndexedFromISR handle index value action true) (fun r =>
    ((r.ret == pdPASS, NotificationBits.ofULong r.value),
     if r.woken == pdTRUE then true else higherPriorityTaskWoken))

/-- `TaskBase::notifyAndQueryFromISR(...)` overload: passes `NULL`. -/
def TaskBase.notifyAndQueryFromISR' {T : Type} (handle : Handle) (action : NotifyAction)
    (value : Nat) (index : UBaseType) : Prog T (Bool × Nat) :=
  kcall (KOp.xTaskNotifyAndQueryIndexedFromISR handle index value action false) (fun r =>
    (r.ret == pdPASS, NotificationBits.ofULong r.value))

/-- `TaskBase::notifyFromISR(bool&, ...)`: calls `xTaskNotifyIndexedFromISR`
with the `taskWoken` pattern; result compared with `pdPASS`. -/
def TaskBase.notifyFromISR {T : Type} (handle : Handle) (higherPriorityTaskWoken : Bool)
    (action : NotifyAction) (value : Nat) (index : UBaseType) : Prog T (Bool × Bool) :=
  kcall (KOp.xTaskNotifyIndexedFromISR handle index value action true) (fun r =>
    (r.ret == pdPASS, if r.woken == pdTRUE then true else higherPriorityTaskWoken))

/-- `TaskBase::notifyFromISR(...)` overload: passes `NULL`. -/
def TaskBase.notifyFromISR' {T : Type} (handle : Handle) (action : NotifyAction) (value : Nat)
    (index : UBaseType) : Prog T Bool :=
  kcall (KOp.xTaskNotifyIndexedFromISR handle index value action false) (fun r => r.ret == pdPASS)

/-- `TaskBase::notifyWait` (static): calls `xTaskNotifyWaitIndexed` with a
local out-parameter and returns
`std::make_pair(result == pdTRUE, NotificationBits(...))`. -/
def TaskBase.notifyWait {T : Type} (ticksToWait : TickType)
    (bitsToClearOnEntry bitsToClearOnExit : Nat) (index : UBaseType) : Prog T (Bool × Nat) :=
  kcall (KOp.xTaskNotifyWaitIndexed index bitsToClearOnEntry bitsToClearOnExit ticksToWait)
    (fun r => (r.ret == pdTRUE, NotificationBits.ofULong r.value))

/-- `TaskBase::notifyStateClear`:
`return (xTaskNotifyStateClearIndexed(handle, index) == pdTRUE);` -/
def TaskBase.notifyStateClear {T : Type} (handle : Handle) (index : UBaseType) : Prog T Bool :=
  kcall (KOp.xTaskNotifyStateClearIndexed handle index) (fun r => r.ret == pdTRUE)

/-- `TaskBase::notifyValueClear`: wraps
`ulTaskNotifyValueClearIndexed(handle, index, bitsToClear.to_ulong())` in
`NotificationBits`. -/
def TaskBase.notifyValueClear {T : Type} (handle : Handle) (bitsToClear : Nat)
    (index : UBaseType) : Prog T Nat :=
  kcall (KOp.ulTaskNotifyValueClearIndexed handle index bitsToClear)
    (fun r => NotificationBits.ofULong r.value)

/-- `TaskBase::delay` (static): `vTaskDelay(ticksToDelay);` -/
def TaskBase.delay {T : Type} (ticksToDelay : TickType) : Prog T Unit :=
  kcall (KOp.vTaskDelay ticksToDelay) (fun _ => ())

/-- `TaskBase::delayUntil`:
`return (xTaskDelayUntil(&previousWakeTime, timeIncrement) == pdTRUE);`
The kernel reads the current `previousWakeTime` through the pointer and
writes back the next wake time (`r.value`); the result pair is (C++ return
value, updated object state). -/
def TaskBase.delayUntil {T : Type} (s : TaskObj) (timeIncrement : TickType) :
    Prog T (Bool × TaskObj) :=
  kcall (KOp.xTaskDelayUntil s.previousWakeTime timeIncrement) (fun r =>
    (r.ret == pdTRUE, TaskObj.mk s.handle r.value))

/-- `TaskBase::notifyTake` (static): wraps
`ulTaskNotifyTakeIndexed(index, clearCountOnExit, ticksToWait)` in
`NotificationBits` (the C++ `bool` converts to `BaseType_t` 1/0). -/
def TaskBase.notifyTake {T : Type} (ticksToWait : TickType) (clearCountOnExit : Bool)
    (index : UBaseType) : Prog T Nat :=
  kcall (KOp.ulTaskNotifyTakeIndexed index (if clearCountOnExit then 1 else 0) ticksToWait)
    (fun r => NotificationBits.ofULong r.value)

/-- `TaskBase::~TaskBase`:
`if (handle != NULL) { vTaskDelete(handle); }` -/
def TaskBase.destruct {T : Type} (s : TaskObj) : Prog T Unit :=
  if s.handle.isSome then kcall (KOp.vTaskDelete s.handle) (fun _ => ()) else Prog.pure ()

/-- `Task::Task(priority, stackDepth, name)`:
`taskCreatedSuccessfully = (xTaskCreate(callTaskFunction, name, stackDepth,
this, priority, &handle) == pdPASS);`  The result is the `TaskBase` state
(handle from the out-pointer, `previousWakeTime` member-initialised to 0)
together with the stored `taskCreatedSuccessfully` flag. -/
def Task.construct {T : Type} (priority : UBaseType) (stackDepth : Nat) :
    Prog T (TaskObj × Bool) :=
  kcall (KOp.xTaskCreate priority stackDepth) (fun r =>
    (TaskObj.mk r.handleOut 0, r.ret == pdPASS))

/-- `Task::isValid`: `return taskCreatedSuccessfully;` (reads the stored
flag, not the handle, and performs no kernel call). -/
def Task.isValid (taskCreatedSuccessfully : Bool) : Bool := taskCreatedSuccessfully

/-- `StaticTask<N>::StaticTask(priority, name)`:
`handle = xTaskCreateStatic(callTaskFunction, name, N, this, priority,
stack, &taskBuffer);` passing the addresses of the `StackType_t stack[N]`
and `StaticTask_t taskBuffer` data members. -/
def StaticTask.construct {T : Type} (N : UBaseType) (priority : UBaseType) : Prog T TaskObj :=
  kcall (KOp.xTaskCreateStatic priority N MemberBuf.taskStack MemberBuf.taskBuffer)
    (fun r => TaskObj.mk r.handleOut 0)

/-! ## TimerBase, Timer and StaticTimer (Timer.hpp)

`TimerBase` stores two data members: `TimerHandle_t handle = NULL` and
`TickType_t deleteBlockTime`.  `deleteTimer` writes the handle member and
`setDeleteBlockTime` / `getDeleteBlockTime` access `deleteBlockTime`, so
those take the whole object state. -/

/-- Data members of `FreeRTOS::TimerBase`. -/
structure TimerObj where
  handle : Handle
  deleteBlockTime : TickType

/-- `TimerBase::timerEntry`: `timerFunction();` (invokes only the
user-supplied virtual function; no kernel call). -/
def TimerBase.timerEntry {T : Type} : Prog T Unit :=
  Prog.call KOp.timerFunction (fun _ => Prog.pure ())

/-- `TimerBase::isValid`: `return (handle != NULL);` -/
def TimerBase.isValid (handle : Handle) : Bool := handle.isSome

/-- `TimerBase::isActive`:
`return (xTimerIsTimerActive(handle) != pdFALSE);` (note: compared against
`pdFALSE`, not `pdTRUE`). -/
def TimerBase.isActive {T : Type} (handle : Handle) : Prog T Bool :=
  kcall (KOp.xTimerIsTimerActive handle) (fun r => !(r.ret == pdFALSE))

/-- `TimerBase::start`: `return (xTimerStart(handle, blockTime) == pdPASS);` -/
def TimerBase.start {T : Type} (handle : Handle) (blockTime : TickType) : Prog T Bool :=
  kcall (KOp.xTimerStart handle blockTime) (fun r => r.ret == pdPASS)

/-- `TimerBase::startFromISR(bool&)`: calls `xTimerStartFromISR` with the
`taskWoken` pattern; result compared with `pdPASS`. -/
def TimerBase.startFromISR {T : Type} (handle : Handle) (higherPriorityTaskWoken : Bool) :
    Prog T (Bool × Bool) :=
  kcall (KOp.xTimerStartFromISR handle true) (fun r =>
    (r.ret == pdPASS, if r.woken == pdTRUE then true else higherPriorityTaskWoken))

/-- `TimerBase::startFromISR()` overload: passes `NULL`. -/
def TimerBase.startFromISR' {T : Type} (handle : Handle) : Prog T Bool :=
  kcall (KOp.xTimerStartFromISR handle false) (fun r => r.ret == pdPASS)

/-- `TimerBase::stop`: `return (xTimerStop(handle, blockTime) == pdPASS);` -/
def TimerBase.stop {T : Type} (handle : Handle) (blockTime : TickType) : Prog T Bool :=
  kcall (KOp.xTimerStop handle blockTime) (fun r => r.ret == pdPASS)

/-- `TimerBase::stopFromISR(bool&)`: `taskWoken` pattern over
`xTimerStopFromISR`. -/
def TimerBase.stopFromISR {T : Type} (handle : Handle) (higherPriorityTaskWoken : Bool) :
    Prog T (Bool × Bool) :=
  kcall (KOp.xTimerStopFromISR handle true) (fun r =>
    (r.ret == pdPASS, if r.woken == pdTRUE then true else higherPriorityTaskWoken))

/-- `TimerBase::stopFromISR()` overload: passes `NULL`. -/
def TimerBase.stopFromISR' {T : Type} (handle : Handle) : Prog T Bool :=
  kcall (KOp.xTimerStopFromISR handle false) (fun r => r.ret == pdPASS)

/-- `TimerBase::changePeriod`:
`return (xTimerChangePeriod(handle, newPeriod, blockTime) == pdPASS);` -/
def TimerBase.changePeriod {T : Type} (handle : Handle) (newPeriod blockTime : TickType) :
    Prog T Bool :=
  kcall (KOp.xTimerChangePeriod handle newPeriod blockTime) (fun r => r.ret == pdPASS)

/-- `TimerBase::changePeriodFromISR(bool&, ...)`: `taskWoken` pattern over
`xTimerChangePeriodFromISR`. -/
def TimerBase.changePeriodFromISR {T : Type} (handle : Handle)
    (higherPriorityTaskWoken : Bool) (newPeriod : TickType) : Prog T (Bool × Bool) :=
  kcall (KOp.xTimerChangePeriodFromISR handle newPeriod true) (fun r =>
    (r.ret == pdPASS, if r.woken == pdTRUE then true else higherPriorityTaskWoken))

/-- `TimerBase::changePeriodFromISR(...)` overload: passes `NULL`. -/
def TimerBase.changePeriodFromISR' {T : Type} (handle : Handle) (newPeriod : TickType) :
    Prog T Bool :=
  kcall (KOp.xTimerChangePeriodFromISR handle newPeriod false) (fun r => r.ret == pdPASS)

/-- `TimerBase::deleteTimer`:
`if (xTimerDelete(handle, blockTime) == pdPASS) { handle = NULL; return
true; } return false;`  The result pair is (C++ return value, updated
object state). -/
def TimerBase.deleteTimer {T : Type} (s : TimerObj) (blockTime : TickType) :
    Prog T (Bool × TimerObj) :=
  kcall (KOp.xTimerDelete s.handle blockTime) (fun r =>
    if r.ret == pdPASS then (true, TimerObj.mk none s.deleteBlockTime) else (false, s))

/-- `TimerBase::reset`: `return (xTimerReset(handle, blockTime) == pdPASS);` -/
def TimerBase.reset {T : Type} (handle : Handle) (blockTime : TickType) : Prog T Bool :=
  kcall (KOp.xTimerReset handle blockTime) (fun r => r.ret == pdPASS)

/-- `TimerBase::resetFromISR(bool&)`: `taskWoken` pattern over
`xTimerResetFromISR`. -/
def TimerBase.resetFromISR {T : Type} (handle : Handle) (higherPriorityTaskWoken : Bool) :
    Prog T (Bool × Bool) :=
  kcall (KOp.xTimerResetFromISR handle true) (fun r =>
    (r.ret == pdPASS, if r.woken == pdTRUE then true else higherPriorityTaskWoken))

/-- `TimerBase::resetFromISR()` overload: passes `NULL`. -/
def TimerBase.resetFromISR' {T : Type} (handle : Handle) : Prog T Bool :=
  kcall (KOp.xTimerResetFromISR handle false) (fun r => r.ret == pdPASS)

/-- `TimerBase::setReloadMode`:
`vTimerSetReloadMode(handle, (autoReload ? pdTRUE : pdFALSE));` -/
def TimerBase.setReloadMode {T : Type} (handle : Handle) (autoReload : Bool) : Prog T Unit :=
  kcall (KOp.vTimerSetReloadMode handle (if autoReload then pdTRUE else pdFALSE)) (fun _ => ())

/-- `TimerBase::getName`: `return pcTimerGetName(handle);` -/
def TimerBase.getName {T : Type} (handle : Handle) : Prog T Nat :=
  kcall (KOp.pcTimerGetName handle) (fun r => r.value)

/-- `TimerBase::getPeriod`: `return xTimerGetPeriod(handle);` -/
def TimerBase.getPeriod {T : Type} (handle : Handle) : Prog T TickType :=
  kcall (KOp.xTimerGetPeriod handle) (fun r => r.value)

/-- `TimerBase::getExpiryTime`: `return xTimerGetExpiryTime(handle);` -/
def TimerBase.getExpiryTime {T : Type} (handle : Handle) : Prog T TickType :=
  kcall (KOp.xTimerGetExpiryTime handle) (fun r => r.value)

/-- `TimerBase::getReloadMode`:
`return (uxTimerGetReloadMode(handle) == pdTRUE);` -/
def TimerBase.getReloadMode {T : Type} (handle : Handle) : Prog T Bool :=
  kcall (KOp.uxTimerGetReloadMode handle) (fun r => r.ret == pdTRUE)

/-- `TimerBase::setDeleteBlockTime`:
`this->deleteBlockTime = deleteBlockTime;` (no kernel call; writes the
`deleteBlockTime` member). -/
def TimerBase.setDeleteBlockTime (s : TimerObj) (deleteBlockTime : TickType) : TimerObj :=
  TimerObj.mk s.handle deleteBlockTime

/-- `TimerBase::getDeleteBlockTime`: `return deleteBlockTime;` (no kernel
call; reads the `deleteBlockTime` member). -/
def TimerBase.getDeleteBlockTime (s : TimerObj) : TickType := s.deleteBlockTime

/-- `TimerBase::~TimerBase`:
`if (isValid()) { deleteTimer(getDeleteBlockTime()); }`; the result is the
final object state. -/
def TimerBase.destruct {T : Type} (s : TimerObj) : Prog T TimerObj :=
  if TimerBase.isValid s.handle then
    Prog.bind (TimerBase.deleteTimer s (TimerBase.getDeleteBlockTime s))
      (fun p => Prog.pure p.2)
  else Prog.pure s

/-- `Timer::Timer(period, autoReload, name, deleteBlockTime)`: initialises
`TimerBase(deleteBlockTime)` and runs `this->handle = xTimerCreate(name,
period, (autoReload ? pdTRUE : pdFALSE), this, callTimerFunction);` -/
def Timer.construct {T : Type} (period : TickType) (autoReload : Bool)
    (deleteBlockTime : TickType) : Prog T TimerObj :=
  kcall (KOp.xTimerCreate period (if autoReload then pdTRUE else pdFALSE))
    (fun r => TimerObj.mk r.handleOut deleteBlockTime)

/-- `StaticTimer::StaticTimer(...)`: as `Timer::Timer` but via
`xTimerCreateStatic(..., &staticTimer)` passing the address of the
`StaticTimer_t staticTimer` data member. -/
def StaticTimer.construct {T : Type} (period : TickType) (autoReload : Bool)
    (deleteBlockTime : TickType) : Prog T TimerObj :=
  kcall (KOp.xTimerCreateStatic period (if autoReload then pdTRUE else pdFALSE)
      MemberBuf.staticTimer)
    (fun r => TimerObj.mk r.handleOut deleteBlockTime)

/-! ## StreamBufferBase (StreamBuffer.hpp)

`StreamBufferBase` stores a single data member `StreamBufferHandle_t handle
= NULL`.  The raw `void*` data pointers are not modelled; only the lengths
are. -/

/-- `StreamBufferBase::isValid`: `return (handle != NULL);` -/
def StreamBufferBase.isValid (handle : Handle) : Bool := handle.isSome

/-- `StreamBufferBase::send`:
`return xStreamBufferSend(handle, data, length, ticksToWait);` -/
def StreamBufferBase.send {T : Type} (handle : Handle) (length : Nat)
    (ticksToWait : TickType) : Prog T Nat :=
  kcall (KOp.xStreamBufferSend handle length ticksToWait) (fun r => r.value)

/-- `StreamBufferBase::sendFromISR(bool&, ...)`: calls
`xStreamBufferSendFromISR` (returns a byte count) with the `taskWoken`
pattern; the result pair is (byte count, `hptw` after call). -/
def StreamBufferBase.sendFromISR {T : Type} (handle : Handle)
    (higherPriorityTaskWoken : Bool) (length : Nat) : Prog T (Nat × Bool) :=
  kcall (KOp.xStreamBufferSendFromISR handle length true) (fun r =>
    (r.value, if r.woken == pdTRUE then true else higherPriorityTaskWoken))

/-- `StreamBufferBase::sendFromISR(...)` overload: passes `NULL`. -/
def StreamBufferBase.sendFromISR' {T : Type} (handle : Handle) (length : Nat) : Prog T Nat :=
  kcall (KOp.xStreamBufferSendFromISR handle length false) (fun r => r.value)

/-- `StreamBufferBase::receive`:
`return xStreamBufferReceive(handle, buffer, bufferLength, ticksToWait);` -/
def StreamBufferBase.receive {T : Type} (handle : Handle) (bufferLength : Nat)
    (ticksToWait : TickType) : Prog T Nat :=
  kcall (KOp.xStreamBufferReceive handle bufferLength ticksToWait) (fun r => r.value)

/-- `StreamBufferBase::receiveFromISR(bool&, ...)`: `taskWoken` pattern over
`xStreamBufferReceiveFromISR`. -/
def StreamBufferBase.receiveFromISR {T : Type} (handle : Handle)
    (higherPriorityTaskWoken : Bool) (bufferLength : Nat) : Prog T (Nat × Bool) :=
  kcall (KOp.xStreamBufferReceiveFromISR handle bufferLength true) (fun r =>
    (r.value, if r.woken == pdTRUE then true else higherPriorityTaskWoken))

/-- `StreamBufferBase::receiveFromISR(...)` overload: passes `NULL`. -/
def StreamBufferBase.receiveFromISR' {T : Type} (handle : Handle) (bufferLength : Nat) :
    Prog T Nat :=
  kcall (KOp.xStreamBufferReceiveFromISR handle bufferLength false) (fun r => r.value)

/-- `StreamBufferBase::bytesAvailable`:
`return xStreamBufferBytesAvailable(handle);` -/
def StreamBufferBase.bytesAvailable {T : Type} (handle : Handle) : Prog T Nat :=
  kcall (KOp.xStreamBufferBytesAvailable handle) (fun r => r.value)

/-- `StreamBufferBase::spacesAvailable`:
`return xStreamBufferSpacesAvailable(handle);` -/
def StreamBufferBase.spacesAvailable {T : Type} (handle : Handle) : Prog T Nat :=
  kcall (KOp.xStreamBufferSpacesAvailable handle) (fun r => r.value)

/-- `StreamBufferBase::setTriggerLevel`:
`return (xStreamBufferSetTriggerLevel(handle, triggerLevel) == pdTRUE);` -/
def StreamBufferBase.setTriggerLevel {T : Type} (handle : Handle) (triggerLevel : Nat) :
    Prog T Bool :=
  kcall (KOp.xStreamBufferSetTriggerLevel handle triggerLevel) (fun r => r.ret == pdTRUE)

/-- `StreamBufferBase::reset`:
`return (xStreamBufferReset(handle) == pdPASS);` -/
def StreamBufferBase.reset {T : Type} (handle : Handle) : Prog T Bool :=
  kcall (KOp.xStreamBufferReset handle) (fun r => r.ret == pdPASS)

/-- `StreamBufferBase::isEmpty`:
`return (xStreamBufferIsEmpty(handle) == pdTRUE);` -/
def StreamBufferBase.isEmpty {T : Type} (handle : Handle) : Prog T Bool :=
  kcall (KOp.xStreamBufferIsEmpty handle) (fun r => r.ret == pdTRUE)

/-- `StreamBufferBase::isFull`:
`return (xStreamBufferIsFull(handle) == pdTRUE);` -/
def StreamBufferBase.isFull {T : Type} (handle : Handle) : Prog T Bool :=
  kcall (KOp.xStreamBufferIsFull handle) (fun r => r.ret == pdTRUE)

/-- `StreamBufferBase::~StreamBufferBase`:
`vStreamBufferDelete(this->handle);` (unconditional). -/
def StreamBufferBase.destruct {T : Type} (handle : Handle) : Prog T Unit :=
  kcall (KOp.vStreamBufferDelete handle) (fun _ => ())

/-- `StreamBuffer::StreamBuffer(size, triggerLevel)`:
`this->handle = xStreamBufferCreate(size, triggerLevel);` -/
def StreamBuffer.construct {T : Type} (size triggerLevel : Nat) : Prog T Handle :=
  kcall (KOp.xStreamBufferCreate size triggerLevel) (fun r => r.handleOut)

/-- `StaticStreamBuffer<N>::StaticStreamBuffer(triggerLevel)`:
`this->handle = xStreamBufferCreateStatic(sizeof(storage), triggerLevel,
storage, &staticStreamBuffer);` where `sizeof(storage) = N`, passing the
addresses of the `uint8_t storage[N]` and `StaticStreamBuffer_t
staticStreamBuffer` data members. -/
def StaticStreamBuffer.construct {T : Type} (N triggerLevel : Nat) : Prog T Handle :=
  kcall (KOp.xStreamBufferCreateStatic N triggerLevel MemberBuf.streamBufferStorage
      MemberBuf.staticStreamBuffer)
    (fun r => r.handleOut)

/-! ## MessageBufferBase (MessageBuffer.hpp) -/

/-- `MessageBufferBase::isValid`: `return (handle != NULL);` -/
def MessageBufferBase.isValid (handle : Handle) : Bool := handle.isSome

/-- `MessageBufferBase::send`:
`return xMessageBufferSend(handle, data, length, ticksToWait);` -/
def MessageBufferBase.send {T : Type} (handle : Handle) (length : Nat)
    (ticksToWait : TickType) : Prog T Nat :=
  kcall (KOp.xMessageBufferSend handle length ticksToWait) (fun r => r.value)

/-- `MessageBufferBase::sendFromISR(bool&, ...)`: `taskWoken` pattern over
`xMessageBufferSendFromISR`. -/
def MessageBufferBase.sendFromISR {T : Type} (handle : Handle)
    (higherPriorityTaskWoken : Bool) (length : Nat) : Prog T (Nat × Bool) :=
  kcall (KOp.xMessageBufferSendFromISR handle length true) (fun r =>
    (r.value, if r.woken == pdTRUE then true else higherPriorityTaskWoken))

/-- `MessageBufferBase::sendFromISR(...)` overload: passes `NULL`. -/
def MessageBufferBase.sendFromISR' {T : Type} (handle : Handle) (length : Nat) : Prog T Nat :=
  kcall (KOp.xMessageBufferSendFromISR handle length false) (fun r => r.value)

/-- `MessageBufferBase::receive`:
`return xMessageBufferReceive(handle, buffer, bufferLength, ticksToWait);` -/
def MessageBufferBase.receive {T : Type} (handle : Handle) (bufferLength : Nat)
    (ticksToWait : TickType) : Prog T Nat :=
  kcall (KOp.xMessageBufferReceive handle bufferLength ticksToWait) (fun r => r.value)

/-- `MessageBufferBase::receiveFromISR(bool&, ...)`: `taskWoken` pattern
over `xMessageBufferReceiveFromISR`. -/
def MessageBufferBase.receiveFromISR {T : Type} (handle : Handle)
    (higherPriorityTaskWoken : Bool) (bufferLength : Nat) : Prog T (Nat × Bool) :=
  kcall (KOp.xMessageBufferReceiveFromISR handle bufferLength true) (fun r =>
    (r.value, if r.woken == pdTRUE then true else higherPriorityTaskWoken))

/-- `MessageBufferBase::receiveFromISR(...)` overload: passes `NULL`. -/
def MessageBufferBase.receiveFromISR' {T : Type} (handle : Handle) (bufferLength : Nat) :
    Prog T Nat :=
  kcall (KOp.xMessageBufferReceiveFromISR handle bufferLength false) (fun r => r.value)

/-- `MessageBufferBase::spacesAvailable`:
`return xMessageBufferSpacesAvailable(handle);` -/
def MessageBufferBase.spacesAvailable {T : Type} (handle : Handle) : Prog T Nat :=
  kcall (KOp.xMessageBufferSpacesAvailable handle) (fun r => r.value)

/-- `MessageBufferBase::reset`:
`return (xMessageBufferReset(handle) == pdPASS);` -/
def MessageBufferBase.reset {T : Type} (handle : Handle) : Prog T Bool :=
  kcall (KOp.xMessageBufferReset handle) (fun r => r.ret == pdPASS)

/-- `MessageBufferBase::isEmpty`:
`return (xMessageBufferIsEmpty(handle) == pdTRUE);` -/
def MessageBufferBase.isEmpty {T : Type} (handle : Handle) : Prog T Bool :=
  kcall (KOp.xMessageBufferIsEmpty handle) (fun r => r.ret == pdTRUE)

/-- `MessageBufferBase::isFull`:
`return (xMessageBufferIsFull(handle) == pdTRUE);` -/
def MessageBufferBase.isFull {T : Type} (handle : Handle) : Prog T Bool :=
  kcall (KOp.xMessageBufferIsFull handle) (fun r => r.ret == pdTRUE)

/-- `MessageBufferBase::~MessageBufferBase`:
`vMessageBufferDelete(this->handle);` (unconditional). -/
def MessageBufferBase.destruct {T : Type} (handle : Handle) : Prog T Unit :=
  kcall (KOp.vMessageBufferDelete handle) (fun _ => ())

/-- `MessageBuffer::MessageBuffer(size)`:
`this->handle = xMessageBufferCreate(size);` -/
def MessageBuffer.construct {T : Type} (size : Nat) : Prog T Handle :=
  kcall (KOp.xMessageBufferCreate size) (fun r => r.handleOut)

/-- `StaticMessageBuffer<N>::StaticMessageBuffer()`:
`this->handle = xMessageBufferCreateStatic(sizeof(storage), storage,
&staticMessageBuffer);` where `sizeof(storage) = N`. -/
def StaticMessageBuffer.construct {T : Type} (N : Nat) : Prog T Handle :=
  kcall (KOp.xMessageBufferCreateStatic N MemberBuf.messageBufferStorage
      MemberBuf.staticMessageBuffer)
    (fun r => r.handleOut)

/-! ## Declaration shape of the `Static*` classes

These constants transcribe, from the class declarations, how many template
parameters each statically-allocated variant class has and the size of its
statically embedded kernel-object storage.  Sizes are expressed as functions
of the opaque `sizeof` constants of the kernel's storage types (passed in as
arguments, since they are target-dependent) and, where applicable, of the
template parameters. -/

/-- `template <UBaseType_t N> class StaticTask`: one template parameter. -/
def StaticTask.numTemplateParams : Nat := 1

/-- Storage of `StaticTask<N>`: members `StaticTask_t taskBuffer` and
`StackType_t stack[N]`. -/
def StaticTask.storageBytes (sizeofStaticTask_t sizeofStackType N : Nat) : Nat :=
  sizeofStaticTask_t + N * sizeofStackType

/-- `template <class T, UBaseType_t N> class StaticQueue`: two template
parameters. -/
def StaticQueue.numTemplateParams : Nat := 2

/-- Storage of `StaticQueue<T, N>`: members `StaticQueue_t staticQueue` and
`uint8_t storage[N * sizeof(T)]`. -/
def StaticQueue.storageBytes (sizeofStaticQueue_t sizeofT N : Nat) : Nat :=
  sizeofStaticQueue_t + N * sizeofT

/-- `template <size_t N> class StaticStreamBuffer`: one template parameter. -/
def StaticStreamBuffer.numTemplateParams : Nat := 1

/-- Storage of `StaticStreamBuffer<N>`: members `StaticStreamBuffer_t
staticStreamBuffer` and `uint8_t storage[N]`. -/
def StaticStreamBuffer.storageBytes (sizeofStaticStreamBuffer_t N : Nat) : Nat :=
  sizeofStaticStreamBuffer_t + N

/-- `template <size_t N> class StaticMessageBuffer`: one template parameter. -/
def StaticMessageBuffer.numTemplateParams : Nat := 1

/-- Storage of `StaticMessageBuffer<N>`: members `StaticMessageBuffer_t
staticMessageBuffer` and `uint8_t storage[N]`. -/
def StaticMessageBuffer.storageBytes (sizeofStaticMessageBuffer_t N : Nat) : Nat :=
  sizeofStaticMessageBuffer_t + N

/-- `class StaticMutex : public MutexBase`: NOT a class template (no
template parameter list in Mutex.hpp). -/
def StaticMutex.numTemplateParams : Nat := 0

/-- Storage of `StaticMutex`: single member `StaticSemaphore_t staticMutex`
of fixed size. -/
def StaticMutex.storageBytes (sizeofStaticSemaphore_t : Nat) : Nat :=
  sizeofStaticSemaphore_t

/-- `class StaticRecursiveMutex : public RecursiveMutexBase`: NOT a class
template. -/
def StaticRecursiveMutex.numTemplateParams : Nat := 0

/-- Storage of `StaticRecursiveMutex`: single member `StaticSemaphore_t
staticRecursiveMutex` of fixed size. -/
def StaticRecursiveMutex.storageBytes (sizeofStaticSemaphore_t : Nat) : Nat :=
  sizeofStaticSemaphore_t

/-- `class StaticBinarySemaphore : public SemaphoreBase`: NOT a class
template. -/
def StaticBinarySemaphore.numTemplateParams : Nat := 0

/-- Storage of `StaticBinarySemaphore`: single member `StaticSemaphore_t
staticBinarySemaphore` of fixed size. -/
def StaticBinarySemaphore.storageBytes (sizeofStaticSemaphore_t : Nat) : Nat :=
  sizeofStaticSemaphore_t

/-- `class StaticCountingSemaphore : public SemaphoreBase`: NOT a class
template (its maximum and initial counts are run-time constructor
arguments, not template parameters). -/
def StaticCountingSemaphore.numTemplateParams : Nat := 0

/-- Storage of `StaticCountingSemaphore`: single member `StaticSemaphore_t
staticCountingSemaphore` of fixed size. -/
def StaticCountingSemaphore.storageBytes (sizeofStaticSemaphore_t : Nat) : Nat :=
  sizeofStaticSemaphore_t

/-- `class StaticEventGroup : public EventGroupBase`: NOT a class template. -/
def StaticEventGroup.numTemplateParams : Nat := 0

/-- Storage of `StaticEventGroup`: single member `StaticEventGroup_t
staticEventGroup` of fixed size. -/
def StaticEventGroup.storageBytes (sizeofStaticEventGroup_t : Nat) : Nat :=
  sizeofStaticEventGroup_t

/-- `class StaticTimer : public TimerBase`: NOT a class template. -/
def StaticTimer.numTemplateParams : Nat := 0

/-- Storage of `StaticTimer`: single member `StaticTimer_t staticTimer` of
fixed size. -/
def StaticTimer.storageBytes (sizeofStaticTimer_t : Nat) : Nat :=
  sizeofStaticTimer_t

/-! ## Shared proof helpers -/

/-- The optional-result translation pattern used by the queue receive/peek
methods, characterised: the optional is engaged iff the status is `pdTRUE`,
contains exactly the kernel-copied item on success, and is `none` on any
other status. -/
theorem optionalOfIf {α : Type} (x : BaseType) (a : α) :
    ((if x == pdTRUE then some a else none).isSome ↔ x = pdTRUE) ∧
    (x = pdTRUE → (if x == pdTRUE then some a else none) = some a) ∧
    (x ≠ pdTRUE → (if x == pdTRUE then some a else none) = none) := by
  cases hb : x == pdTRUE
  · simp [hb, ne_of_beq_false hb]
  · simp [hb, eq_of_beq hb]

/-- The `taskWoken` write-back pattern
`if (taskWoken == pdTRUE) { higherPriorityTaskWoken = true; }` is the
boolean join of the old flag with the kernel's verdict. -/
theorem wokenSticky (w : BaseType) (b : Bool) :
    (if w == pdTRUE then true else b) = (b || (w == pdTRUE)) := by
  cases hb : w == pdTRUE <;> simp [hb]

/-- Oracle for the C3 witness: every call reports status 1 (`pdTRUE`),
writes no woken flag, returns handle 5, copies item `99` and reports
numeric value 7. -/
def oracleC3w : Oracle Nat := fun _ => KResp.mk 1 0 (some 5) 99 7

/-- C3: for every element type `T`, each call to `Queue<T>::receive`,
`QueueBase<T>::receiveFromISR` (both overloads), `QueueBase<T>::peek` and
`QueueBase<T>::peekFromISR` returns an optional that contains the item the
kernel copied out if and only if the underlying kernel call
(`xQueueReceive`, `xQueueReceiveFromISR`, `xQueuePeek`, `xQueuePeekFromISR`)
returned `pdTRUE`, and is `std::nullopt` otherwise; on failure no item value
is exposed to the caller. -/
theorem C3_optional_receive :
    ∀ (T : Type) (h : Handle) (ticksToWait : TickType) (hptw : Bool) (o : Oracle T),
      -- receive
      ((((QueueBase.receive h ticksToWait).result o).isSome ↔
          (o (KOp.xQueueReceive h ticksToWait)).ret = pdTRUE) ∧
        ((o (KOp.xQueueReceive h ticksToWait)).ret = pdTRUE →
          (QueueBase.receive h ticksToWait).result o =
            some ((o (KOp.xQueueReceive h ticksToWait)).item)) ∧
        ((o (KOp.xQueueReceive h ticksToWait)).ret ≠ pdTRUE →
          (QueueBase.receive h ticksToWait).result o = none)) ∧
      -- receiveFromISR(bool&)
      (((((QueueBase.receiveFromISR h hptw).result o).1).isSome ↔
          (o (KOp.xQueueReceiveFromISR h true)).ret = pdTRUE) ∧
        ((o (KOp.xQueueReceiveFromISR h true)).ret = pdTRUE →
          ((QueueBase.receiveFromISR h hptw).result o).1 =
            some ((o (KOp.xQueueReceiveFromISR h true)).item)) ∧
        ((o (KOp.xQueueReceiveFromISR h true)).ret ≠ pdTRUE →
          ((QueueBase.receiveFromISR h hptw).result o).1 = none)) ∧
      -- receiveFromISR() overload
      ((((QueueBase.receiveFromISR' h).result o).isSome ↔
          (o (KOp.xQueueReceiveFromISR h false)).ret = pdTRUE) ∧
        ((o (KOp.xQueueReceiveFromISR h false)).ret = pdTRUE →
          (QueueBase.receiveFromISR' h).result o =
            some ((o (KOp.xQueueReceiveFromISR h false)).item)) ∧
        ((o (KOp.xQueueReceiveFromISR h false)).ret ≠ pdTRUE →
          (QueueBase.receiveFromISR' h).result o = none)) ∧
      -- peek
      ((((QueueBase.peek h ticksToWait).result o).isSome ↔
          (o (KOp.xQueuePeek h ticksToWait)).ret = pdTRUE) ∧
        ((o (KOp.xQueuePeek h ticksToWait)).ret = pdTRUE →
          (QueueBase.peek h ticksToWait).result o =
            some ((o (KOp.xQueuePeek h ticksToWait)).item)) ∧
        ((o (KOp.xQueuePeek h ticksToWait)).ret ≠ pdTRUE →
          (QueueBase.peek h ticksToWait).result o = none)) ∧
      -- peekFromISR
      ((((QueueBase.peekFromISR h).result o).isSome ↔
          (o (KOp.xQueuePeekFromISR h)).ret = pdTRUE) ∧
        ((o (KOp.xQueuePeekFromISR h)).ret = pdTRUE →
          (QueueBase.peekFromISR h).result o =
            some ((o (KOp.xQueuePeekFromISR h)).item)) ∧
        ((o (KOp.xQueuePeekFromISR h)).ret ≠ pdTRUE →
          (QueueBase.peekFromISR h).result o = none)) := by
  intro T h t hptw o
  exact ⟨optionalOfIf _ _, optionalOfIf _ _, optionalOfIf _ _, optionalOfIf _ _,
    optionalOfIf _ _⟩

/-- C3 witness: at a concrete oracle whose `xQueueReceive` / `xQueuePeek`
status is `pdTRUE` and whose copied item is `99`, `receive` and `peek`
expose `some 99`. -/
theorem C3_optional_receive_witness :
    (QueueBase.receive (some 1) 0).result oracleC3w = some 99 ∧
    (QueueBase.peek (some 1) 0).result oracleC3w = some 99 :=
  ⟨(C3_optional_receive Nat (some 1) 0 false oracleC3w).1.2.1 rfl,
   (C3_optional_receive Nat (some 1) 0 false oracleC3w).2.2.2.1.2.1 rfl⟩

/-- C7: for every statically-allocated variant class, constructing the
object performs exactly one kernel call, namely the `...CreateStatic`
function for its object type, with the addresses of the object's own data
members passed as the storage buffers, and no operation in the constructor's
trace allocates from the runtime heap. -/
theorem C7_static_storage_members :
    ∀ (T : Type) (o : Oracle T)
      (N sizeofT triggerLevel maxCount initialCount priority : Nat)
      (period deleteBlockTime : TickType) (autoReload : Bool),
      ((StaticMutex.construct : Prog T Handle).trace o =
          [KOp.xSemaphoreCreateMutexStatic MemberBuf.staticMutex]) ∧
      (((StaticMutex.construct : Prog T Handle).trace o).all
          (fun op => !KOp.usesHeap op) = true) ∧
      ((StaticRecursiveMutex.construct : Prog T Handle).trace o =
          [KOp.xSemaphoreCreateRecursiveMutexStatic MemberBuf.staticRecursiveMutex]) ∧
      (((StaticRecursiveMutex.construct : Prog T Handle).trace o).all
          (fun op => !KOp.usesHeap op) = true) ∧
      ((StaticBinarySemaphore.construct : Prog T Handle).trace o =
          [KOp.xSemaphoreCreateBinaryStatic MemberBuf.staticBinarySemaphore]) ∧
      (((StaticBinarySemaphore.construct : Prog T Handle).trace o).all
          (fun op => !KOp.usesHeap op) = true) ∧
      ((StaticCountingSemaphore.construct maxCount initialCount : Prog T Handle).trace o =
          [KOp.xSemaphoreCreateCountingStatic maxCount initialCount
            MemberBuf.staticCountingSemaphore]) ∧
      (((StaticCountingSemaphore.construct maxCount initialCount : Prog T Handle).trace o).all
          (fun op => !KOp.usesHeap op) = true) ∧
      ((StaticQueue.construct N sizeofT : Prog T Handle).trace o =
          [KOp.xQueueCreateStatic N sizeofT MemberBuf.queueStorage MemberBuf.staticQueue]) ∧
      (((StaticQueue.construct N sizeofT : Prog T Handle).trace o).all
          (fun op => !KOp.usesHeap op) = true) ∧
      ((StaticEventGroup.construct : Prog T Handle).trace o =
          [KOp.xEventGroupCreateStatic MemberBuf.staticEventGroup]) ∧
      (((StaticEventGroup.construct : Prog T Handle).trace o).all
          (fun op => !KOp.usesHeap op) = true) ∧
      ((StaticTask.construct N priority : Prog T TaskObj).trace o =
          [KOp.xTaskCreateStatic priority N MemberBuf.taskStack MemberBuf.taskBuffer]) ∧
      (((StaticTask.construct N priority : Prog T TaskObj).trace o).all
          (fun op => !KOp.usesHeap op) = true) ∧
      ((StaticTimer.construct period autoReload deleteBlockTime : Prog T TimerObj).trace o =
          [KOp.xTimerCreateStatic period (if autoReload then pdTRUE else pdFALSE)
            MemberBuf.staticTimer]) ∧
      (((StaticTimer.construct period autoReload deleteBlockTime : Prog T TimerObj).trace o).all
          (fun op => !KOp.usesHeap op) = true) ∧
      ((StaticStreamBuffer.construct N triggerLevel : Prog T Handle).trace o =
          [KOp.xStreamBufferCreateStatic N triggerLevel MemberBuf.streamBufferStorage
            MemberBuf.staticStreamBuffer]) ∧
      (((StaticStreamBuffer.construct N triggerLevel : Prog T Handle).trace o).all
          (fun op => !KOp.usesHeap op) = true) ∧
      ((StaticMessageBuffer.construct N : Prog T Handle).trace o =
          [KOp.xMessageBufferCreateStatic N MemberBuf.messageBufferStorage
            MemberBuf.staticMessageBuffer]) ∧
      (((StaticMessageBuffer.construct N : Prog T Handle).trace o).all
          (fun op => !KOp.usesHeap op) = true) := by
  intros
  repeat' apply And.intro
  all_goals rfl

/-- C8: every `FromISR` wrapper method taking a `bool&
higherPriorityTaskWoken` parameter leaves the referenced flag equal to the
boolean join of its value on entry with (kernel's
`pxHigherPriorityTaskWoken` output `== pdTRUE`): it never assigns `false`,
a `true` on entry survives, and a `false` flips to `true` exactly when the
kernel wrote `pdTRUE` — hence the flag is sticky across any sequence of
such calls sharing one variable. -/
theorem C8_woken_flag_sticky :
    ∀ (T : Type) (o : Oracle T) (h : Handle) (hptw : Bool) (item : T)
      (index value bitsToSet length bufferLength : Nat) (newPeriod : TickType)
      (action : NotifyAction),
      (((MutexBase.lockFromISR h hptw).result o).2 =
        (hptw || ((o (KOp.xSemaphoreTakeFromISR h true)).woken == pdTRUE))) ∧
      (((SemaphoreBase.takeFromISR h hptw).result o).2 =
        (hptw || ((o (KOp.xSemaphoreTakeFromISR h true)).woken == pdTRUE))) ∧
      (((SemaphoreBase.giveFromISR h hptw).result o).2 =
        (hptw || ((o (KOp.xSemaphoreGiveFromISR h true)).woken == pdTRUE))) ∧
      (((QueueBase.sendToBackFromISR h hptw item).result o).2 =
        (hptw || ((o (KOp.xQueueSendToBackFromISR h item true)).woken == pdTRUE))) ∧
      (((QueueBase.sendToFrontFromISR h hptw item).result o).2 =
        (hptw || ((o (KOp.xQueueSendToFrontFromISR h item true)).woken == pdTRUE))) ∧
      (((QueueBase.receiveFromISR h hptw).result o).2 =
        (hptw || ((o (KOp.xQueueReceiveFromISR h true)).woken == pdTRUE))) ∧
      (((QueueBase.overwriteFromISR h hptw item).result o) =
        (hptw || ((o (KOp.xQueueOverwriteFromISR h item true)).woken == pdTRUE))) ∧
      (((EventGroupBase.setFromISR h hptw bitsToSet).result o).2 =
        (hptw || ((o (KOp.xEventGroupSetBitsFromISR h bitsToSet true)).woken == pdTRUE))) ∧
      (((TaskBase.notifyGiveFromISR h hptw index).result o) =
        (hptw || ((o (KOp.vTaskNotifyGiveIndexedFromISR h index true)).woken == pdTRUE))) ∧
      (((TaskBase.notifyFromISR h hptw action value index).result o).2 =
        (hptw ||
          ((o (KOp.xTaskNotifyIndexedFromISR h index value action true)).woken == pdTRUE))) ∧
      (((TaskBase.notifyAndQueryFromISR h hptw action value index).result o).2 =
        (hptw ||
          ((o (KOp.xTaskNotifyAndQueryIndexedFromISR h index value action true)).woken ==
            pdTRUE))) ∧
      (((TimerBase.startFromISR h hptw).result o).2 =
        (hptw || ((o (KOp.xTimerStartFromISR h true)).woken == pdTRUE))) ∧
      (((TimerBase.stopFromISR h hptw).result o).2 =
        (hptw || ((o (KOp.xTimerStopFromISR h true)).woken == pdTRUE))) ∧
      (((TimerBase.changePeriodFromISR h hptw newPeriod).result o).2 =
        (hptw || ((o (KOp.xTimerChangePeriodFromISR h newPeriod true)).woken == pdTRUE))) ∧
      (((TimerBase.resetFromISR h hptw).result o).2 =
        (hptw || ((o (KOp.xTimerResetFromISR h true)).woken == pdTRUE))) ∧
      (((StreamBufferBase.sendFromISR h hptw length).result o).2 =
        (hptw || ((o (KOp.xStreamBufferSendFromISR h length true)).woken == pdTRUE))) ∧
      (((StreamBufferBase.receiveFromISR h hptw bufferLength).result o).2 =
        (hptw ||
          ((o (KOp.xStreamBufferReceiveFromISR h bufferLength true)).woken == pdTRUE))) ∧
      (((MessageBufferBase.sendFromISR h hptw length).result o).2 =
        (hptw || ((o (KOp.xMessageBufferSendFromISR h length true)).woken == pdTRUE))) ∧
      (((MessageBufferBase.receiveFromISR h hptw bufferLength).result o).2 =
        (hptw ||
          ((o (KOp.xMessageBufferReceiveFromISR h bufferLength true)).woken == pdTRUE))) := by
  intros
  repeat' apply And.intro
  all_goals exact wokenSticky _ _

/-- C9: the destructors of `MutexBase`, `SemaphoreBase` and
`EventGroupBase` call the kernel delete function unconditionally on the
stored handle, including when it is still `NULL`, whereas `TaskBase`'s
destructor calls `vTaskDelete` only under the guard `handle != NULL`; hence
destroying one of the listed handle-based wrappers after a failed creation
passes `NULL` to the kernel delete function, while destroying a failed task
performs no kernel call at all. -/
theorem C9_destructor_delete_guards :
    ∀ (T : Type) (o : Oracle T) (h : Handle) (s : TaskObj),
      ((MutexBase.destruct h : Prog T Unit).trace o = [KOp.vSemaphoreDelete h]) ∧
      ((SemaphoreBase.destruct h : Prog T Unit).trace o = [KOp.vSemaphoreDelete h]) ∧
      ((EventGroupBase.destruct h : Prog T Unit).trace o = [KOp.vEventGroupDelete h]) ∧
      ((TaskBase.destruct s : Prog T Unit).trace o =
        if s.handle.isSome then [KOp.vTaskDelete s.handle] else []) ∧
      ((MutexBase.destruct (none : Handle) : Prog T Unit).trace o =
        [KOp.vSemaphoreDelete none]) ∧
      ((SemaphoreBase.destruct (none : Handle) : Prog T Unit).trace o =
        [KOp.vSemaphoreDelete none]) ∧
      ((EventGroupBase.destruct (none : Handle) : Prog T Unit).trace o =
        [KOp.vEventGroupDelete none]) ∧
      ((TaskBase.destruct (TaskObj.mk none 0) : Prog T Unit).trace o = []) := by
  intro T o h s
  refine ⟨rfl, rfl, rfl, ?_, rfl, rfl, rfl, rfl⟩
  by_cases hs : s.handle.isSome <;> simp [TaskBase.destruct, hs]

/-- C10: `TaskBase::taskEntry()` first reads the kernel tick count
(`FreeRTOS::Kernel::getTickCount`) into the task's `previousWakeTime`
member and only then invokes the user-supplied `taskFunction()` (which
therefore observes `previousWakeTime` equal to the tick at which the task
started running); a first `delayUntil(timeIncrement)` after entry passes
exactly that start tick to `xTaskDelayUntil`, and every `delayUntil` call
passes the current `previousWakeTime` by address and stores back the wake
time the kernel writes through the pointer. -/
theorem C10_taskEntry_previousWakeTime :
    ∀ (T : Type) (o : Oracle T) (s s' : TaskObj) (timeIncrement : TickType),
      ((TaskBase.taskEntry s : Prog T TaskObj).run o =
        (TaskObj.mk s.handle ((o KOp.xTaskGetTickCount).value),
         [KOp.xTaskGetTickCount,
          KOp.taskFunction ((o KOp.xTaskGetTickCount).value)])) ∧
      ((TaskBase.delayUntil (TaskObj.mk s.handle ((o KOp.xTaskGetTickCount).value))
          timeIncrement : Prog T (Bool × TaskObj)).run o =
        (((o (KOp.xTaskDelayUntil ((o KOp.xTaskGetTickCount).value) timeIncrement)).ret ==
            pdTRUE,
          TaskObj.mk s.handle
            ((o (KOp.xTaskDelayUntil ((o KOp.xTaskGetTickCount).value)
              timeIncrement)).value)),
         [KOp.xTaskDelayUntil ((o KOp.xTaskGetTickCount).value) timeIncrement])) ∧
      ((TaskBase.delayUntil s' timeIncrement : Prog T (Bool × TaskObj)).run o =
        (((o (KOp.xTaskDelayUntil s'.previousWakeTime timeIncrement)).ret == pdTRUE,
          TaskObj.mk s'.handle
            ((o (KOp.xTaskDelayUntil s'.previousWakeTime timeIncrement)).value)),
         [KOp.xTaskDelayUntil s'.previousWakeTime timeIncrement])) := by
  intros
  exact ⟨rfl, rfl, rfl⟩

/-- Oracle at which every kernel call returns the status value 2 (a value
that is neither `pdTRUE` nor `pdFALSE`; FreeRTOS status returns are not
restricted to 0/1 in general). -/
def oracleRet2 : Oracle Unit := fun _ => KResp.mk 2 0 none () 0

/-- C2 counterexample: `TimerBase::isActive` is a bool-returning wrapper
method, but it translates the kernel result with `!= pdFALSE` instead of
`== pdTRUE`: when `xTimerIsTimerActive` returns 2 the method returns
`true` although 2 is not `pdTRUE`, contradicting the claim that every
bool-returning wrapper method returns `false` for every kernel return
value other than `pdTRUE`/`pdPASS`. -/
theorem C2_isActive_counterexample :
    (TimerBase.isActive (some 1) : Prog Unit Bool).result oracleRet2 = true ∧
    (oracleRet2 (KOp.xTimerIsTimerActive (some 1))).ret ≠ pdTRUE := by
  exact ⟨rfl, by decide⟩

/-- C2 (amended): every bool-returning wrapper method that wraps a kernel
call returns `true` iff the kernel returned `pdTRUE` (respectively `pdPASS`,
numerically the same value 1) and `false` for every other return value —
with the single exception of `TimerBase::isActive`, which returns `true`
iff the kernel value differs from `pdFALSE` (so any nonzero value yields
`true`). -/
theorem C2_bool_translation_amended :
    ∀ (T : Type) (o : Oracle T) (h : Handle) (hptw : Bool) (item : T) (s : TimerObj)
      (ticksToWait blockTime newPeriod : TickType)
      (index value bitsToSet bitsToClear triggerLevel : Nat)
      (bitsToClearOnEntry bitsToClearOnExit : Nat)
      (ticksToCatchUp : TickType) (action : NotifyAction) (task : TaskObj)
      (timeIncrement : TickType),
      ((MutexBase.lock h ticksToWait : Prog T Bool).result o =
        ((o (KOp.xSemaphoreTake h ticksToWait)).ret == pdTRUE)) ∧
      (((MutexBase.lockFromISR h hptw : Prog T (Bool × Bool)).result o).1 =
        ((o (KOp.xSemaphoreTakeFromISR h true)).ret == pdTRUE)) ∧
      ((MutexBase.lockFromISR' h : Prog T Bool).result o =
        ((o (KOp.xSemaphoreTakeFromISR h false)).ret == pdTRUE)) ∧
      ((MutexBase.unlock h : Prog T Bool).result o =
        ((o (KOp.xSemaphoreGive h)).ret == pdTRUE)) ∧
      ((RecursiveMutexBase.lock h ticksToWait : Prog T Bool).result o =
        ((o (KOp.xSemaphoreTakeRecursive h ticksToWait)).ret == pdTRUE)) ∧
      ((RecursiveMutexBase.unlock h : Prog T Bool).result o =
        ((o (KOp.xSemaphoreGiveRecursive h)).ret == pdTRUE)) ∧
      ((SemaphoreBase.take h ticksToWait : Prog T Bool).result o =
        ((o (KOp.xSemaphoreTake h ticksToWait)).ret == pdTRUE)) ∧
      (((SemaphoreBase.takeFromISR h hptw : Prog T (Bool × Bool)).result o).1 =
        ((o (KOp.xSemaphoreTakeFromISR h true)).ret == pdTRUE)) ∧
      ((SemaphoreBase.takeFromISR' h : Prog T Bool).result o =
        ((o (KOp.xSemaphoreTakeFromISR h false)).ret == pdTRUE)) ∧
      ((SemaphoreBase.give h : Prog T Bool).result o =
        ((o (KOp.xSemaphoreGive h)).ret == pdTRUE)) ∧
      (((SemaphoreBase.giveFromISR h hptw : Prog T (Bool × Bool)).result o).1 =
        ((o (KOp.xSemaphoreGiveFromISR h true)).ret == pdTRUE)) ∧
      ((SemaphoreBase.giveFromISR' h : Prog T Bool).result o =
        ((o (KOp.xSemaphoreGiveFromISR h false)).ret == pdTRUE)) ∧
      ((QueueBase.sendToBack h item ticksToWait).result o =
        ((o (KOp.xQueueSendToBack h item ticksToWait)).ret == pdTRUE)) ∧
      (((QueueBase.sendToBackFromISR h hptw item).result o).1 =
        ((o (KOp.xQueueSendToBackFromISR h item true)).ret == pdPASS)) ∧
      ((QueueBase.sendToBackFromISR' h item).result o =
        ((o (KOp.xQueueSendToBackFromISR h item false)).ret == pdPASS)) ∧
      ((QueueBase.sendToFront h item ticksToWait).result o =
        ((o (KOp.xQueueSendToFront h item ticksToWait)).ret == pdTRUE)) ∧
      (((QueueBase.sendToFrontFromISR h hptw item).result o).1 =
        ((o (KOp.xQueueSendToFrontFromISR h item true)).ret == pdPASS)) ∧
      ((QueueBase.sendToFrontFromISR' h item).result o =
        ((o (KOp.xQueueSendToFrontFromISR h item false)).ret == pdPASS)) ∧
      ((QueueBase.isFullFromISR h : Prog T Bool).result o =
        ((o (KOp.xQueueIsQueueFullFromISR h)).ret == pdTRUE)) ∧
      ((QueueBase.isEmptyFromISR h : Prog T Bool).result o =
        ((o (KOp.xQueueIsQueueEmptyFromISR h)).ret == pdTRUE)) ∧
      (((EventGroupBase.setFromISR h hptw bitsToSet : Prog T (Bool × Bool)).result o).1 =
        ((o (KOp.xEventGroupSetBitsFromISR h bitsToSet true)).ret == pdPASS)) ∧
      ((EventGroupBase.setFromISR' h bitsToSet : Prog T Bool).result o =
        ((o (KOp.xEventGroupSetBitsFromISR h bitsToSet false)).ret == pdPASS)) ∧
      ((EventGroupBase.clearFromISR h bitsToClear : Prog T Bool).result o =
        ((o (KOp.xEventGroupClearBitsFromISR h bitsToClear)).ret == pdPASS)) ∧
      ((TaskBase.resumeFromISR h : Prog T Bool).result o =
        ((o (KOp.xTaskResumeFromISR h)).ret == pdTRUE)) ∧
      ((TaskBase.abortDelay h : Prog T Bool).result o =
        ((o (KOp.xTaskAbortDelay h)).ret == pdPASS)) ∧
      ((TaskBase.notify h action value index : Prog T Bool).result o =
        ((o (KOp.xTaskNotifyIndexed h index value action)).ret == pdPASS)) ∧
      (((TaskBase.notifyAndQuery h action value index : Prog T (Bool × Nat)).result o).1 =
        ((o (KOp.xTaskNotifyAndQueryIndexed h index value action)).ret == pdPASS)) ∧
      ((((TaskBase.notifyAndQueryFromISR h hptw action value index :
            Prog T ((Bool × Nat) × Bool)).result o).1).1 =
        ((o (KOp.xTaskNotifyAndQueryIndexedFromISR h index value action true)).ret ==
          pdPASS)) ∧
      (((TaskBase.notifyAndQueryFromISR' h action value index :
            Prog T (Bool × Nat)).result o).1 =
        ((o (KOp.xTaskNotifyAndQueryIndexedFromISR h index value action false)).ret ==
          pdPASS)) ∧
      (((TaskBase.notifyFromISR h hptw action value index : Prog T (Bool × Bool)).result
          o).1 =
        ((o (KOp.xTaskNotifyIndexedFromISR h index value action true)).ret == pdPASS)) ∧
      ((TaskBase.notifyFromISR' h action value index : Prog T Bool).result o =
        ((o (KOp.xTaskNotifyIndexedFromISR h index value action false)).ret == pdPASS)) ∧
      (((TaskBase.notifyWait ticksToWait bitsToClearOnEntry bitsToClearOnExit index :
            Prog T (Bool × Nat)).result o).1 =
        ((o (KOp.xTaskNotifyWaitIndexed index bitsToClearOnEntry bitsToClearOnExit
            ticksToWait)).ret == pdTRUE)) ∧
      ((TaskBase.notifyStateClear h index : Prog T Bool).result o =
        ((o (KOp.xTaskNotifyStateClearIndexed h index)).ret == pdTRUE)) ∧
      (((TaskBase.delayUntil task timeIncrement : Prog T (Bool × TaskObj)).result o).1 =
        ((o (KOp.xTaskDelayUntil task.previousWakeTime timeIncrement)).ret == pdTRUE)) ∧
      ((Kernel.resumeAll : Prog T Bool).result o =
        ((o KOp.xTaskResumeAll).ret == pdTRUE)) ∧
      ((Kernel.catchUpTicks ticksToCatchUp : Prog T Bool).result o =
        ((o (KOp.xTaskCatchUpTicks ticksToCatchUp)).ret == pdTRUE)) ∧
      ((TimerBase.start h blockTime : Prog T Bool).result o =
        ((o (KOp.xTimerStart h blockTime)).ret == pdPASS)) ∧
      (((TimerBase.startFromISR h hptw : Prog T (Bool × Bool)).result o).1 =
        ((o (KOp.xTimerStartFromISR h true)).ret == pdPASS)) ∧
      ((TimerBase.startFromISR' h : Prog T Bool).result o =
        ((o (KOp.xTimerStartFromISR h false)).ret == pdPASS)) ∧
      ((TimerBase.stop h blockTime : Prog T Bool).result o =
        ((o (KOp.xTimerStop h blockTime)).ret == pdPASS)) ∧
      (((TimerBase.stopFromISR h hptw : Prog T (Bool × Bool)).result o).1 =
        ((o (KOp.xTimerStopFromISR h true)).ret == pdPASS)) ∧
      ((TimerBase.stopFromISR' h : Prog T Bool).result o =
        ((o (KOp.xTimerStopFromISR h false)).ret == pdPASS)) ∧
      ((TimerBase.changePeriod h newPeriod blockTime : Prog T Bool).result o =
        ((o (KOp.xTimerChangePeriod h newPeriod blockTime)).ret == pdPASS)) ∧
      (((TimerBase.changePeriodFromISR h hptw newPeriod : Prog T (Bool × Bool)).result
          o).1 =
        ((o (KOp.xTimerChangePeriodFromISR h newPeriod true)).ret == pdPASS)) ∧
      ((TimerBase.changePeriodFromISR' h newPeriod : Prog T Bool).result o =
        ((o (KOp.xTimerChangePeriodFromISR h newPeriod false)).ret == pdPASS)) ∧
      ((TimerBase.reset h blockTime : Prog T Bool).result o =
        ((o (KOp.xTimerReset h blockTime)).ret == pdPASS)) ∧
      (((TimerBase.resetFromISR h hptw : Prog T (Bool × Bool)).result o).1 =
        ((o (KOp.xTimerResetFromISR h true)).ret == pdPASS)) ∧
      ((TimerBase.resetFromISR' h : Prog T Bool).result o =
        ((o (KOp.xTimerResetFromISR h false)).ret == pdPASS)) ∧
      ((TimerBase.getReloadMode h : Prog T Bool).result o =
        ((o (KOp.uxTimerGetReloadMode h)).ret == pdTRUE)) ∧
      ((StreamBufferBase.setTriggerLevel h triggerLevel : Prog T Bool).result o =
        ((o (KOp.xStreamBufferSetTriggerLevel h triggerLevel)).ret == pdTRUE)) ∧
      ((StreamBufferBase.reset h : Prog T Bool).result o =
        ((o (KOp.xStreamBufferReset h)).ret == pdPASS)) ∧
      ((StreamBufferBase.isEmpty h : Prog T Bool).result o =
        ((o (KOp.xStreamBufferIsEmpty h)).ret == pdTRUE)) ∧
      ((StreamBufferBase.isFull h : Prog T Bool).result o =
        ((o (KOp.xStreamBufferIsFull h)).ret == pdTRUE)) ∧
      ((MessageBufferBase.reset h : Prog T Bool).result o =
        ((o (KOp.xMessageBufferReset h)).ret == pdPASS)) ∧
      ((MessageBufferBase.isEmpty h : Prog T Bool).result o =
        ((o (KOp.xMessageBufferIsEmpty h)).ret == pdTRUE)) ∧
      ((MessageBufferBase.isFull h : Prog T Bool).result o =
        ((o (KOp.xMessageBufferIsFull h)).ret == pdTRUE)) ∧
      ((TimerBase.isActive h : Prog T Bool).result o =
        !((o (KOp.xTimerIsTimerActive h)).ret == pdFALSE)) ∧
      (((TimerBase.deleteTimer s blockTime : Prog T (Bool × TimerObj)).result o).1 =
        ((o (KOp.xTimerDelete s.handle blockTime)).ret == pdPASS)) := by
  intro T o h hptw item s ticksToWait blockTime newPeriod index value bitsToSet
    bitsToClear triggerLevel bitsToClearOnEntry bitsToClearOnExit ticksToCatchUp
    action task timeIncrement
  repeat' apply And.intro
  all_goals try rfl
  all_goals (
    show (if (o (KOp.xTimerDelete s.handle blockTime)).ret == pdPASS then
        (true, TimerObj.mk none s.deleteBlockTime)
      else (false, s)).1 = ((o (KOp.xTimerDelete s.handle blockTime)).ret == pdPASS)
    cases hb : (o (KOp.xTimerDelete s.handle blockTime)).ret == pdPASS <;> rfl)

/-- Oracle at which every create call succeeds with handle 7 and every
status return is 1 (`pdTRUE`/`pdPASS`). -/
def oracleTimerLive : Oracle Unit := fun _ => KResp.mk 1 0 (some 7) () 0

/-- C5 counterexample: construct a `Timer` whose `xTimerCreate` returned the
non-`NULL` handle 7 (a usable object, `isValid() == true`), then call
`deleteTimer()` with `xTimerDelete` succeeding: `deleteTimer` assigns `NULL`
to the handle member — an assignment that is not the value returned by a
kernel create function — and `isValid()` now returns `false` although the
creation call in the constructor did produce a usable object.  This refutes
both universal parts of the claim for the `TimerBase` wrapper. -/
theorem C5_deleteTimer_counterexample :
    ((oracleTimerLive (KOp.xTimerCreate 100 pdFALSE)).handleOut ≠ none) ∧
    (TimerBase.isValid
        ((Timer.construct 100 false 0 : Prog Unit TimerObj).result oracleTimerLive).handle =
      true) ∧
    ((((TimerBase.deleteTimer
          ((Timer.construct 100 false 0 : Prog Unit TimerObj).result oracleTimerLive) 0 :
          Prog Unit (Bool × TimerObj)).result oracleTimerLive).2).handle = none) ∧
    (TimerBase.isValid
        (((TimerBase.deleteTimer
          ((Timer.construct 100 false 0 : Prog Unit TimerObj).result oracleTimerLive) 0 :
          Prog Unit (Bool × TimerObj)).result oracleTimerLive).2).handle = false) := by
  exact ⟨by decide, rfl, rfl, rfl⟩

/-- C5 (amended): in every wrapper class that provides `isValid()`, the
handle member is `NULL`-initialised and assigned by the kernel create call
of the constructor, and `isValid()` is the test `handle != NULL` (for
`FreeRTOS::Task`, the stored boolean result of `xTaskCreate`, which agrees
with the handle test whenever the kernel returns a `NULL` handle exactly on
failure) — except that `TimerBase::deleteTimer` additionally re-assigns the
handle to `NULL` when `xTimerDelete` succeeds (leaving it unchanged on
failure), after which `isValid()` reports `false` even though creation had
succeeded. -/
theorem C5_handle_validity_amended :
    ∀ (T : Type) (o : Oracle T) (s : TimerObj)
      (maxCount initialCount priority N sizeofT size triggerLevel : Nat)
      (stackDepth : Nat) (period blockTime deleteBlockTime : TickType) (autoReload : Bool),
      -- handle-based wrappers: isValid after construction is exactly
      -- "the handle the create call returned is not NULL"
      ((MutexBase.isValid ((Mutex.construct : Prog T Handle).result o) =
          ((o KOp.xSemaphoreCreateMutex).handleOut).isSome) ∧
        (MutexBase.isValid ((RecursiveMutex.construct : Prog T Handle).result o) =
          ((o KOp.xSemaphoreCreateRecursiveMutex).handleOut).isSome) ∧
        (MutexBase.isValid ((StaticMutex.construct : Prog T Handle).result o) =
          ((o (KOp.xSemaphoreCreateMutexStatic MemberBuf.staticMutex)).handleOut).isSome) ∧
        (MutexBase.isValid ((StaticRecursiveMutex.construct : Prog T Handle).result o) =
          ((o (KOp.xSemaphoreCreateRecursiveMutexStatic
            MemberBuf.staticRecursiveMutex)).handleOut).isSome) ∧
        (SemaphoreBase.isValid ((BinarySemaphore.construct : Prog T Handle).result o) =
          ((o KOp.xSemaphoreCreateBinary).handleOut).isSome) ∧
        (SemaphoreBase.isValid
            ((CountingSemaphore.construct maxCount initialCount : Prog T Handle).result o) =
          ((o (KOp.xSemaphoreCreateCounting maxCount initialCount)).handleOut).isSome) ∧
        (SemaphoreBase.isValid ((StaticBinarySemaphore.construct : Prog T Handle).result o) =
          ((o (KOp.xSemaphoreCreateBinaryStatic
            MemberBuf.staticBinarySemaphore)).handleOut).isSome) ∧
        (SemaphoreBase.isValid
            ((StaticCountingSemaphore.construct maxCount initialCount :
              Prog T Handle).result o) =
          ((o (KOp.xSemaphoreCreateCountingStatic maxCount initialCount
            MemberBuf.staticCountingSemaphore)).handleOut).isSome) ∧
        (QueueBase.isValid ((Queue.construct N sizeofT : Prog T Handle).result o) =
          ((o (KOp.xQueueCreate N sizeofT)).handleOut).isSome) ∧
        (QueueBase.isValid ((StaticQueue.construct N sizeofT : Prog T Handle).result o) =
          ((o (KOp.xQueueCreateStatic N sizeofT MemberBuf.queueStorage
            MemberBuf.staticQueue)).handleOut).isSome) ∧
        (EventGroupBase.isValid ((EventGroup.construct : Prog T Handle).result o) =
          ((o KOp.xEventGroupCreate).handleOut).isSome) ∧
        (EventGroupBase.isValid ((StaticEventGroup.construct : Prog T Handle).result o) =
          ((o (KOp.xEventGroupCreateStatic MemberBuf.staticEventGroup)).handleOut).isSome) ∧
        (TimerBase.isValid
            ((Timer.construct period autoReload deleteBlockTime :
              Prog T TimerObj).result o).handle =
          ((o (KOp.xTimerCreate period
            (if autoReload then pdTRUE else pdFALSE))).handleOut).isSome) ∧
        (TimerBase.isValid
            ((StaticTimer.construct period autoReload deleteBlockTime :
              Prog T TimerObj).result o).handle =
          ((o (KOp.xTimerCreateStatic period (if autoReload then pdTRUE else pdFALSE)
            MemberBuf.staticTimer)).handleOut).isSome) ∧
        (StreamBufferBase.isValid
            ((StreamBuffer.construct size triggerLevel : Prog T Handle).result o) =
          ((o (KOp.xStreamBufferCreate size triggerLevel)).handleOut).isSome) ∧
        (StreamBufferBase.isValid
            ((StaticStreamBuffer.construct N triggerLevel : Prog T Handle).result o) =
          ((o (KOp.xStreamBufferCreateStatic N triggerLevel
            MemberBuf.streamBufferStorage MemberBuf.staticStreamBuffer)).handleOut).isSome) ∧
        (MessageBufferBase.isValid ((MessageBuffer.construct size : Prog T Handle).result o) =
          ((o (KOp.xMessageBufferCreate size)).handleOut).isSome) ∧
        (MessageBufferBase.isValid
            ((StaticMessageBuffer.construct N : Prog T Handle).result o) =
          ((o (KOp.xMessageBufferCreateStatic N MemberBuf.messageBufferStorage
            MemberBuf.staticMessageBuffer)).handleOut).isSome)) ∧
      -- Task stores the boolean result of xTaskCreate and isValid returns it
      (Task.isValid (((Task.construct priority stackDepth :
          Prog T (TaskObj × Bool)).result o).2) =
        ((o (KOp.xTaskCreate priority stackDepth)).ret == pdPASS)) ∧
      -- the two validity criteria agree when the kernel returns a NULL
      -- handle exactly on failure
      ((((o (KOp.xTaskCreate priority stackDepth)).ret = pdPASS ↔
          ((o (KOp.xTaskCreate priority stackDepth)).handleOut).isSome = true) →
        (Task.isValid (((Task.construct priority stackDepth :
            Prog T (TaskObj × Bool)).result o).2) = true ↔
          (((Task.construct priority stackDepth :
            Prog T (TaskObj × Bool)).result o).1).handle.isSome = true))) ∧
      -- the Timer exception: deleteTimer clears the handle on success and
      -- leaves the state unchanged on failure
      (((o (KOp.xTimerDelete s.handle blockTime)).ret = pdPASS →
        ((TimerBase.deleteTimer s blockTime : Prog T (Bool × TimerObj)).result o =
          (true, TimerObj.mk none s.deleteBlockTime)) ∧
        TimerBase.isValid
          (((TimerBase.deleteTimer s blockTime :
            Prog T (Bool × TimerObj)).result o).2).handle = false)) ∧
      (((o (KOp.xTimerDelete s.handle blockTime)).ret ≠ pdPASS →
        (TimerBase.deleteTimer s blockTime : Prog T (Bool × TimerObj)).result o =
          (false, s))) := by
  intro T o s maxCount initialCount priority N sizeofT size triggerLevel stackDepth
    period blockTime deleteBlockTime autoReload
  refine ⟨⟨rfl, rfl, rfl, rfl, rfl, rfl, rfl, rfl, rfl, rfl, rfl, rfl, rfl, rfl, rfl,
    rfl, rfl, rfl⟩, rfl, ?_, ?_, ?_⟩
  · intro hiff
    show ((o (KOp.xTaskCreate priority stackDepth)).ret == pdPASS) = true ↔
      ((o (KOp.xTaskCreate priority stackDepth)).handleOut).isSome = true
    rw [beq_iff_eq]
    exact hiff
  · intro hr
    constructor
    · show (if (o (KOp.xTimerDelete s.handle blockTime)).ret == pdPASS then
          (true, TimerObj.mk none s.deleteBlockTime)
        else (false, s)) = (true, TimerObj.mk none s.deleteBlockTime)
      simp [hr]
    · show TimerBase.isValid
        ((if (o (KOp.xTimerDelete s.handle blockTime)).ret == pdPASS then
            (true, TimerObj.mk none s.deleteBlockTime)
          else (false, s)).2).handle = false
      simp [hr, TimerBase.isValid]
  · intro hr
    show (if (o (KOp.xTimerDelete s.handle blockTime)).ret == pdPASS then
        (true, TimerObj.mk none s.deleteBlockTime)
      else (false, s)) = (false, s)
    simp [hr]

/-- C5 witness: at a concrete oracle whose `xTaskCreate` succeeds
(status `pdPASS`, handle 7) the two validity criteria agree, and a
successful `xTimerDelete` leaves the timer state with a `NULL` handle. -/
theorem C5_handle_validity_witness :
    (Task.isValid (((Task.construct 3 64 :
        Prog Unit (TaskObj × Bool)).result oracleTimerLive).2) = true ↔
      (((Task.construct 3 64 :
        Prog Unit (TaskObj × Bool)).result oracleTimerLive).1).handle.isSome = true) ∧
    ((TimerBase.deleteTimer (TimerObj.mk (some 7) 4) 0 :
        Prog Unit (Bool × TimerObj)).result oracleTimerLive =
      (true, TimerObj.mk none 4)) :=
  ⟨(C5_handle_validity_amended Unit oracleTimerLive (TimerObj.mk (some 7) 4)
      0 0 3 0 0 0 0 64 0 0 0 false).2.2.1 (by decide),
   ((C5_handle_validity_amended Unit oracleTimerLive (TimerObj.mk (some 7) 4)
      0 0 3 0 0 0 0 64 0 0 0 false).2.2.2.1 (by decide)).1⟩

/-- C6 counterexample: `StaticMutex`, `StaticRecursiveMutex`,
`StaticBinarySemaphore`, `StaticCountingSemaphore`, `StaticEventGroup` and
`StaticTimer` are ordinary classes with no template parameter list (their
declaration-shape transcriptions record zero template parameters), so the
claim that every statically-allocated variant class is a class template
whose template parameters determine its storage size is false. -/
theorem C6_not_template_counterexample :
    StaticMutex.numTemplateParams = 0 ∧
    StaticRecursiveMutex.numTemplateParams = 0 ∧
    StaticBinarySemaphore.numTemplateParams = 0 ∧
    StaticCountingSemaphore.numTemplateParams = 0 ∧
    StaticEventGroup.numTemplateParams = 0 ∧
    StaticTimer.numTemplateParams = 0 :=
  ⟨rfl, rfl, rfl, rfl, rfl, rfl⟩

/-- C6 (amended): among the statically-allocated variant classes, exactly
`StaticTask`, `StaticQueue`, `StaticStreamBuffer` and `StaticMessageBuffer`
are class templates, and their template parameters genuinely determine the
size of the statically-allocated storage (the storage grows with the size
parameter); the remaining six (`StaticMutex`, `StaticRecursiveMutex`,
`StaticBinarySemaphore`, `StaticCountingSemaphore`, `StaticEventGroup`,
`StaticTimer`) are non-template classes embedding a single fixed-size
kernel storage struct. -/
theorem C6_static_templates_amended :
    ∀ (c w sizeofT : Nat),
      (StaticTask.numTemplateParams = 1) ∧
      (1 ≤ w → StaticTask.storageBytes c w 1 < StaticTask.storageBytes c w 2) ∧
      (StaticQueue.numTemplateParams = 2) ∧
      (1 ≤ sizeofT →
        StaticQueue.storageBytes c sizeofT 1 < StaticQueue.storageBytes c sizeofT 2) ∧
      (StaticStreamBuffer.numTemplateParams = 1) ∧
      (StaticStreamBuffer.storageBytes c 1 < StaticStreamBuffer.storageBytes c 2) ∧
      (StaticMessageBuffer.numTemplateParams = 1) ∧
      (StaticMessageBuffer.storageBytes c 1 < StaticMessageBuffer.storageBytes c 2) ∧
      (StaticMutex.numTemplateParams = 0 ∧ StaticMutex.storageBytes c = c) ∧
      (StaticRecursiveMutex.numTemplateParams = 0 ∧
        StaticRecursiveMutex.storageBytes c = c) ∧
      (StaticBinarySemaphore.numTemplateParams = 0 ∧
        StaticBinarySemaphore.storageBytes c = c) ∧
      (StaticCountingSemaphore.numTemplateParams = 0 ∧
        StaticCountingSemaphore.storageBytes c = c) ∧
      (StaticEventGroup.numTemplateParams = 0 ∧ StaticEventGroup.storageBytes c = c) ∧
      (StaticTimer.numTemplateParams = 0 ∧ StaticTimer.storageBytes c = c) := by
  intro c w sizeofT
  refine ⟨rfl, ?_, rfl, ?_, rfl, ?_, rfl, ?_, ⟨rfl, rfl⟩, ⟨rfl, rfl⟩, ⟨rfl, rfl⟩,
    ⟨rfl, rfl⟩, ⟨rfl, rfl⟩, ⟨rfl, rfl⟩⟩
  · intro hw
    simp only [StaticTask.storageBytes]
    omega
  · intro hs
    simp only [StaticQueue.storageBytes]
    omega
  · simp only [StaticStreamBuffer.storageBytes]
    omega
  · simp only [StaticMessageBuffer.storageBytes]
    omega

/-- C6 witness: with kernel-struct size 10 and element/stack-unit sizes 4
and 8, the storage of `StaticTask` and `StaticQueue` strictly grows with
the size template parameter. -/
theorem C6_static_templates_witness :
    StaticTask.storageBytes 10 4 1 < StaticTask.storageBytes 10 4 2 ∧
    StaticQueue.storageBytes 10 8 1 < StaticQueue.storageBytes 10 8 2 :=
  ⟨(C6_static_templates_amended 10 4 8).2.1 (by decide),
   (C6_static_templates_amended 10 4 8).2.2.2.1 (by decide)⟩

/-- Oracle at which every call reports status 1 and numeric value 42. -/
def oracleValue42 : Oracle Unit := fun _ => KResp.mk 1 0 none () 42

/-- C1 counterexample: `TaskBase::delayUntil` reads AND writes the
`previousWakeTime` data member — a member other than the stored handle: it
passes the member's current value (5) to `xTaskDelayUntil` and overwrites
the member with the wake time the kernel writes back (42); likewise
`TaskBase::taskEntry` overwrites the member with the current tick count.
This refutes the claim that no wrapper method reads or writes a data member
other than the stored handle and maintains no state of its own. -/
theorem C1_member_access_counterexample :
    ((TaskBase.delayUntil (TaskObj.mk (some 1) 5) 10 :
        Prog Unit (Bool × TaskObj)).result oracleValue42).2.previousWakeTime = 42 ∧
    ((TaskBase.delayUntil (TaskObj.mk (some 1) 5) 10 :
        Prog Unit (Bool × TaskObj)).result oracleValue42).2.previousWakeTime ≠
      (TaskObj.mk (some 1) 5).previousWakeTime ∧
    ((TaskBase.delayUntil (TaskObj.mk (some 1) 5) 10 :
        Prog Unit (Bool × TaskObj)).trace oracleValue42 = [KOp.xTaskDelayUntil 5 10]) ∧
    ((TaskBase.taskEntry (TaskObj.mk (some 1) 5) :
        Prog Unit TaskObj).result oracleValue42).previousWakeTime = 42 :=
  ⟨rfl, by decide, rfl, rfl⟩

/-- C1 (amended): every public method of the wrapper classes (`MutexBase`,
`RecursiveMutexBase`, `SemaphoreBase`, `QueueBase`, `EventGroupBase`,
`TaskBase`, `TimerBase`, `StreamBufferBase`, the `Kernel` namespace
functions) performs exactly one call to its corresponding kernel C
function, only translating arguments and the return code, and touches no
data member besides the stored handle — with these exceptions:
`TaskBase::taskEntry` performs one kernel call (`xTaskGetTickCount`) plus
the user `taskFunction()` invocation and writes the `previousWakeTime`
member; `TaskBase::delayUntil` reads and writes `previousWakeTime`;
`TimerBase::timerEntry` performs no kernel call (only the user
`timerFunction()`); `TimerBase::deleteTimer` clears the stored handle on
success; `Task::isValid` reads the stored creation flag;
`TimerBase::setDeleteBlockTime` / `getDeleteBlockTime` access the
`deleteBlockTime` member with no kernel call; and the `isValid()` accessors
perform no kernel call, reading only the handle. -/
theorem C1_single_kernel_call_amended :
    ∀ (T : Type) (o : Oracle T) (h : Handle) (hptw : Bool) (item : T) (s : TimerObj)
      (task : TaskObj) (ticksToWait blockTime newPeriod ticksToJump ticksToCatchUp
        ticksToDelay timeIncrement deleteBlockTime : TickType)
      (index value bitsToSet bitsToClear bitsToWaitFor triggerLevel length
        bufferLength newPriority interruptStatus bitsToClearOnEntry
        bitsToClearOnExit : Nat)
      (action : NotifyAction) (clearOnExit waitForAllBits autoReload
        clearCountOnExit : Bool) (b : Bool),
      -- MutexBase and RecursiveMutexBase
      ((MutexBase.lock h ticksToWait : Prog T Bool).trace o =
        [KOp.xSemaphoreTake h ticksToWait]) ∧
      ((MutexBase.lockFromISR h hptw : Prog T (Bool × Bool)).trace o =
        [KOp.xSemaphoreTakeFromISR h true]) ∧
      ((MutexBase.lockFromISR' h : Prog T Bool).trace o =
        [KOp.xSemaphoreTakeFromISR h false]) ∧
      ((MutexBase.unlock h : Prog T Bool).trace o = [KOp.xSemaphoreGive h]) ∧
      ((RecursiveMutexBase.lock h ticksToWait : Prog T Bool).trace o =
        [KOp.xSemaphoreTakeRecursive h ticksToWait]) ∧
      ((RecursiveMutexBase.unlock h : Prog T Bool).trace o =
        [KOp.xSemaphoreGiveRecursive h]) ∧
      -- SemaphoreBase
      ((SemaphoreBase.getCount h : Prog T UBaseType).trace o =
        [KOp.uxSemaphoreGetCount h]) ∧
      ((SemaphoreBase.take h ticksToWait : Prog T Bool).trace o =
        [KOp.xSemaphoreTake h ticksToWait]) ∧
      ((SemaphoreBase.takeFromISR h hptw : Prog T (Bool × Bool)).trace o =
        [KOp.xSemaphoreTakeFromISR h true]) ∧
      ((SemaphoreBase.takeFromISR' h : Prog T Bool).trace o =
        [KOp.xSemaphoreTakeFromISR h false]) ∧
      ((SemaphoreBase.give h : Prog T Bool).trace o = [KOp.xSemaphoreGive h]) ∧
      ((SemaphoreBase.giveFromISR h hptw : Prog T (Bool × Bool)).trace o =
        [KOp.xSemaphoreGiveFromISR h true]) ∧
      ((SemaphoreBase.giveFromISR' h : Prog T Bool).trace o =
        [KOp.xSemaphoreGiveFromISR h false]) ∧
      -- QueueBase
      ((QueueBase.sendToBack h item ticksToWait).trace o =
        [KOp.xQueueSendToBack h item ticksToWait]) ∧
      ((QueueBase.sendToBackFromISR h hptw item).trace o =
        [KOp.xQueueSendToBackFromISR h item true]) ∧
      ((QueueBase.sendToBackFromISR' h item).trace o =
        [KOp.xQueueSendToBackFromISR h item false]) ∧
      ((QueueBase.sendToFront h item ticksToWait).trace o =
        [KOp.xQueueSendToFront h item ticksToWait]) ∧
      ((QueueBase.sendToFrontFromISR h hptw item).trace o =
        [KOp.xQueueSendToFrontFromISR h item true]) ∧
      ((QueueBase.sendToFrontFromISR' h item).trace o =
        [KOp.xQueueSendToFrontFromISR h item false]) ∧
      ((QueueBase.receive h ticksToWait : Prog T (Option T)).trace o =
        [KOp.xQueueReceive h ticksToWait]) ∧
      ((QueueBase.receiveFromISR h hptw : Prog T (Option T × Bool)).trace o =
        [KOp.xQueueReceiveFromISR h true]) ∧
      ((QueueBase.receiveFromISR' h : Prog T (Option T)).trace o =
        [KOp.xQueueReceiveFromISR h false]) ∧
      ((QueueBase.messagesWaiting h : Prog T UBaseType).trace o =
        [KOp.uxQueueMessagesWaiting h]) ∧
      ((QueueBase.messagesWaitingFromISR h : Prog T UBaseType).trace o =
        [KOp.uxQueueMessagesWaitingFromISR h]) ∧
      ((QueueBase.spacesAvailable h : Prog T UBaseType).trace o =
        [KOp.uxQueueSpacesAvailable h]) ∧
      ((QueueBase.reset h : Prog T Unit).trace o = [KOp.xQueueReset h]) ∧
      ((QueueBase.overwrite h item).trace o = [KOp.xQueueOverwrite h item]) ∧
      ((QueueBase.overwriteFromISR h hptw item).trace o =
        [KOp.xQueueOverwriteFromISR h item true]) ∧
      ((QueueBase.overwriteFromISR' h item).trace o =
        [KOp.xQueueOverwriteFromISR h item false]) ∧
      ((QueueBase.peek h ticksToWait : Prog T (Option T)).trace o =
        [KOp.xQueuePeek h ticksToWait]) ∧
      ((QueueBase.peekFromISR h : Prog T (Option T)).trace o =
        [KOp.xQueuePeekFromISR h]) ∧
      ((QueueBase.addToRegistry h : Prog T Unit).trace o =
        [KOp.vQueueAddToRegistry h]) ∧
      ((QueueBase.unregister h : Prog T Unit).trace o =
        [KOp.vQueueUnregisterQueue h]) ∧
      ((QueueBase.getName h : Prog T Nat).trace o = [KOp.pcQueueGetName h]) ∧
      ((QueueBase.isFullFromISR h : Prog T Bool).trace o =
        [KOp.xQueueIsQueueFullFromISR h]) ∧
      ((QueueBase.isEmptyFromISR h : Prog T Bool).trace o =
        [KOp.xQueueIsQueueEmptyFromISR h]) ∧
      -- EventGroupBase
      ((EventGroupBase.wait h bitsToWaitFor clearOnExit waitForAllBits ticksToWait :
          Prog T Nat).trace o =
        [KOp.xEventGroupWaitBits h bitsToWaitFor
          (if clearOnExit then pdTRUE else pdFALSE)
          (if waitForAllBits then pdTRUE else pdFALSE) ticksToWait]) ∧
      ((EventGroupBase.set h bitsToSet : Prog T Nat).trace o =
        [KOp.xEventGroupSetBits h bitsToSet]) ∧
      ((EventGroupBase.setFromISR h hptw bitsToSet : Prog T (Bool × Bool)).trace o =
        [KOp.xEventGroupSetBitsFromISR h bitsToSet true]) ∧
      ((EventGroupBase.setFromISR' h bitsToSet : Prog T Bool).trace o =
        [KOp.xEventGroupSetBitsFromISR h bitsToSet false]) ∧
      ((EventGroupBase.clear h bitsToClear : Prog T Nat).trace o =
        [KOp.xEventGroupClearBits h bitsToClear]) ∧
      ((EventGroupBase.clearFromISR h bitsToClear : Prog T Bool).trace o =
        [KOp.xEventGroupClearBitsFromISR h bitsToClear]) ∧
      ((EventGroupBase.get h : Prog T Nat).trace o = [KOp.xEventGroupGetBits h]) ∧
      ((EventGroupBase.getFromISR h : Prog T Nat).trace o =
        [KOp.xEventGroupGetBitsFromISR h]) ∧
      ((EventGroupBase.sync h bitsToSet bitsToWaitFor ticksToWait : Prog T Nat).trace o =
        [KOp.xEventGroupSync h bitsToSet bitsToWaitFor ticksToWait]) ∧
      -- TaskBase (handle-only methods)
      ((TaskBase.getPriority h : Prog T UBaseType).trace o =
        [KOp.uxTaskPriorityGet h]) ∧
      ((TaskBase.setPriority h newPriority : Prog T Unit).trace o =
        [KOp.vTaskPrioritySet h newPriority]) ∧
      ((TaskBase.suspend h : Prog T Unit).trace o = [KOp.vTaskSuspend h]) ∧
      ((TaskBase.resume h : Prog T Unit).trace o = [KOp.vTaskResume h]) ∧
      ((TaskBase.resumeFromISR h : Prog T Bool).trace o =
        [KOp.xTaskResumeFromISR h]) ∧
      ((TaskBase.abortDelay h : Prog T Bool).trace o = [KOp.xTaskAbortDelay h]) ∧
      ((TaskBase.getIdleHandle : Prog T Handle).trace o =
        [KOp.xTaskGetIdleTaskHandle]) ∧
      ((TaskBase.getStackHighWaterMark h : Prog T UBaseType).trace o =
        [KOp.uxTaskGetStackHighWaterMark h]) ∧
      ((TaskBase.getStackHighWaterMark2 h : Prog T UBaseType).trace o =
        [KOp.uxTaskGetStackHighWaterMark2 h]) ∧
      ((TaskBase.getState h : Prog T BaseType).trace o = [KOp.eTaskGetState h]) ∧
      ((TaskBase.getName h : Prog T Nat).trace o = [KOp.pcTaskGetName h]) ∧
      ((TaskBase.getHandle : Prog T Handle).trace o = [KOp.xTaskGetHandle]) ∧
      ((TaskBase.notifyGive h index : Prog T Unit).trace o =
        [KOp.xTaskNotifyGiveIndexed h index]) ∧
      ((TaskBase.notifyGiveFromISR h hptw index : Prog T Bool).trace o =
        [KOp.vTaskNotifyGiveIndexedFromISR h index true]) ∧
      ((TaskBase.notifyGiveFromISR' h index : Prog T Unit).trace o =
        [KOp.vTaskNotifyGiveIndexedFromISR h index false]) ∧
      ((TaskBase.notify h action value index : Prog T Bool).trace o =
        [KOp.xTaskNotifyIndexed h index value action]) ∧
      ((TaskBase.notifyAndQuery h action value index : Prog T (Bool × Nat)).trace o =
        [KOp.xTaskNotifyAndQueryIndexed h index value action]) ∧
      ((TaskBase.notifyAndQueryFromISR h hptw action value index :
          Prog T ((Bool × Nat) × Bool)).trace o =
        [KOp.xTaskNotifyAndQueryIndexedFromISR h index value action true]) ∧
      ((TaskBase.notifyAndQueryFromISR' h action value index :
          Prog T (Bool × Nat)).trace o =
        [KOp.xTaskNotifyAndQueryIndexedFromISR h index value action false]) ∧
      ((TaskBase.notifyFromISR h hptw action value index :
          Prog T (Bool × Bool)).trace o =
        [KOp.xTaskNotifyIndexedFromISR h index value action true]) ∧
      ((TaskBase.notifyFromISR' h action value index : Prog T Bool).trace o =
        [KOp.xTaskNotifyIndexedFromISR h index value action false]) ∧
      ((TaskBase.notifyWait ticksToWait bitsToClearOnEntry bitsToClearOnExit index :
          Prog T (Bool × Nat)).trace o =
        [KOp.xTaskNotifyWaitIndexed index bitsToClearOnEntry bitsToClearOnExit
          ticksToWait]) ∧
      ((TaskBase.notifyStateClear h index : Prog T Bool).trace o =
        [KOp.xTaskNotifyStateClearIndexed h index]) ∧
      ((TaskBase.notifyValueClear h bitsToClear index : Prog T Nat).trace o =
        [KOp.ulTaskNotifyValueClearIndexed h index bitsToClear]) ∧
      ((TaskBase.delay ticksToDelay : Prog T Unit).trace o =
        [KOp.vTaskDelay ticksToDelay]) ∧
      ((TaskBase.notifyTake ticksToWait clearCountOnExit index : Prog T Nat).trace o =
        [KOp.ulTaskNotifyTakeIndexed index (if clearCountOnExit then 1 else 0)
          ticksToWait]) ∧
      -- TimerBase (handle-only methods)
      ((TimerBase.isActive h : Prog T Bool).trace o = [KOp.xTimerIsTimerActive h]) ∧
      ((TimerBase.start h blockTime : Prog T Bool).trace o =
        [KOp.xTimerStart h blockTime]) ∧
      ((TimerBase.startFromISR h hptw : Prog T (Bool × Bool)).trace o =
        [KOp.xTimerStartFromISR h true]) ∧
      ((TimerBase.startFromISR' h : Prog T Bool).trace o =
        [KOp.xTimerStartFromISR h false]) ∧
      ((TimerBase.stop h blockTime : Prog T Bool).trace o =
        [KOp.xTimerStop h blockTime]) ∧
      ((TimerBase.stopFromISR h hptw : Prog T (Bool × Bool)).trace o =
        [KOp.xTimerStopFromISR h true]) ∧
      ((TimerBase.stopFromISR' h : Prog T Bool).trace o =
        [KOp.xTimerStopFromISR h false]) ∧
      ((TimerBase.changePeriod h newPeriod blockTime : Prog T Bool).trace o =
        [KOp.xTimerChangePeriod h newPeriod blockTime]) ∧
      ((TimerBase.changePeriodFromISR h hptw newPeriod : Prog T (Bool × Bool)).trace o =
        [KOp.xTimerChangePeriodFromISR h newPeriod true]) ∧
      ((TimerBase.changePeriodFromISR' h newPeriod : Prog T Bool).trace o =
        [KOp.xTimerChangePeriodFromISR h newPeriod false]) ∧
      ((TimerBase.reset h blockTime : Prog T Bool).trace o =
        [KOp.xTimerReset h blockTime]) ∧
      ((TimerBase.resetFromISR h hptw : Prog T (Bool × Bool)).trace o =
        [KOp.xTimerResetFromISR h true]) ∧
      ((TimerBase.resetFromISR' h : Prog T Bool).trace o =
        [KOp.xTimerResetFromISR h false]) ∧
      ((TimerBase.setReloadMode h autoReload : Prog T Unit).trace o =
        [KOp.vTimerSetReloadMode h (if autoReload then pdTRUE else pdFALSE)]) ∧
      ((TimerBase.getName h : Prog T Nat).trace o = [KOp.pcTimerGetName h]) ∧
      ((TimerBase.getPeriod h : Prog T TickType).trace o = [KOp.xTimerGetPeriod h]) ∧
      ((TimerBase.getExpiryTime h : Prog T TickType).trace o =
        [KOp.xTimerGetExpiryTime h]) ∧
      ((TimerBase.getReloadMode h : Prog T Bool).trace o =
        [KOp.uxTimerGetReloadMode h]) ∧
      -- StreamBufferBase
      ((StreamBufferBase.send h length ticksToWait : Prog T Nat).trace o =
        [KOp.xStreamBufferSend h length ticksToWait]) ∧
      ((StreamBufferBase.sendFromISR h hptw length : Prog T (Nat × Bool)).trace o =
        [KOp.xStreamBufferSendFromISR h length true]) ∧
      ((StreamBufferBase.sendFromISR' h length : Prog T Nat).trace o =
        [KOp.xStreamBufferSendFromISR h length false]) ∧
      ((StreamBufferBase.receive h bufferLength ticksToWait : Prog T Nat).trace o =
        [KOp.xStreamBufferReceive h bufferLength ticksToWait]) ∧
      ((StreamBufferBase.receiveFromISR h hptw bufferLength :
          Prog T (Nat × Bool)).trace o =
        [KOp.xStreamBufferReceiveFromISR h bufferLength true]) ∧
      ((StreamBufferBase.receiveFromISR' h bufferLength : Prog T Nat).trace o =
        [KOp.xStreamBufferReceiveFromISR h bufferLength false]) ∧
      ((StreamBufferBase.bytesAvailable h : Prog T Nat).trace o =
        [KOp.xStreamBufferBytesAvailable h]) ∧
      ((StreamBufferBase.spacesAvailable h : Prog T Nat).trace o =
        [KOp.xStreamBufferSpacesAvailable h]) ∧
      ((StreamBufferBase.setTriggerLevel h triggerLevel : Prog T Bool).trace o =
        [KOp.xStreamBufferSetTriggerLevel h triggerLevel]) ∧
      ((StreamBufferBase.reset h : Prog T Bool).trace o =
        [KOp.xStreamBufferReset h]) ∧
      ((StreamBufferBase.isEmpty h : Prog T Bool).trace o =
        [KOp.xStreamBufferIsEmpty h]) ∧
      ((StreamBufferBase.isFull h : Prog T Bool).trace o =
        [KOp.xStreamBufferIsFull h]) ∧
      -- Kernel namespace functions
      ((Kernel.getSchedulerState : Prog T BaseType).trace o =
        [KOp.xTaskGetSchedulerState]) ∧
      ((Kernel.getNumberOfTasks : Prog T UBaseType).trace o =
        [KOp.uxTaskGetNumberOfTasks]) ∧
      ((Kernel.getIdleRunTimeCounter : Prog T TickType).trace o =
        [KOp.xTaskGetIdleRunTimeCounter]) ∧
      ((Kernel.getTickCount : Prog T TickType).trace o = [KOp.xTaskGetTickCount]) ∧
      ((Kernel.getTickCountFromISR : Prog T TickType).trace o =
        [KOp.xTaskGetTickCountFromISR]) ∧
      ((Kernel.yield : Prog T Unit).trace o = [KOp.taskYIELD]) ∧
      ((Kernel.enterCritical : Prog T Unit).trace o = [KOp.taskENTER_CRITICAL]) ∧
      ((Kernel.enterCriticalFromISR : Prog T Nat).trace o =
        [KOp.taskENTER_CRITICAL_FROM_ISR]) ∧
      ((Kernel.exitCritical : Prog T Unit).trace o = [KOp.taskEXIT_CRITICAL]) ∧
      ((Kernel.exitCriticalFromISR interruptStatus : Prog T Unit).trace o =
        [KOp.taskEXIT_CRITICAL_FROM_ISR interruptStatus]) ∧
      ((Kernel.disableInterrupts : Prog T Unit).trace o =
        [KOp.taskDISABLE_INTERRUPTS]) ∧
      ((Kernel.enableInterrupts : Prog T Unit).trace o =
        [KOp.taskENABLE_INTERRUPTS]) ∧
      ((Kernel.startScheduler : Prog T Unit).trace o = [KOp.vTaskStartScheduler]) ∧
      ((Kernel.endScheduler : Prog T Unit).trace o = [KOp.vTaskEndScheduler]) ∧
      ((Kernel.suspendAll : Prog T Unit).trace o = [KOp.vTaskSuspendAll]) ∧
      ((Kernel.resumeAll : Prog T Bool).trace o = [KOp.xTaskResumeAll]) ∧
      ((Kernel.stepTick ticksToJump : Prog T Unit).trace o =
        [KOp.vTaskStepTick ticksToJump]) ∧
      ((Kernel.catchUpTicks ticksToCatchUp : Prog T Bool).trace o =
        [KOp.xTaskCatchUpTicks ticksToCatchUp]) ∧
      -- the exceptions, characterised exactly
      ((TaskBase.taskEntry task : Prog T TaskObj).trace o =
        [KOp.xTaskGetTickCount,
         KOp.taskFunction ((o KOp.xTaskGetTickCount).value)]) ∧
      (((TaskBase.taskEntry task : Prog T TaskObj).trace o).filter KOp.isKernelCall =
        [KOp.xTaskGetTickCount]) ∧
      ((TaskBase.taskEntry task : Prog T TaskObj).result o =
        TaskObj.mk task.handle ((o KOp.xTaskGetTickCount).value)) ∧
      ((TaskBase.delayUntil task timeIncrement : Prog T (Bool × TaskObj)).trace o =
        [KOp.xTaskDelayUntil task.previousWakeTime timeIncrement]) ∧
      (((TaskBase.delayUntil task timeIncrement :
          Prog T (Bool × TaskObj)).result o).2 =
        TaskObj.mk task.handle
          ((o (KOp.xTaskDelayUntil task.previousWakeTime timeIncrement)).value)) ∧
      ((TimerBase.timerEntry : Prog T Unit).trace o = [KOp.timerFunction]) ∧
      (((TimerBase.timerEntry : Prog T Unit).trace o).filter KOp.isKernelCall = []) ∧
      ((TimerBase.deleteTimer s blockTime : Prog T (Bool × TimerObj)).trace o =
        [KOp.xTimerDelete s.handle blockTime]) ∧
      (Task.isValid b = b) ∧
      (TimerBase.setDeleteBlockTime s deleteBlockTime =
        TimerObj.mk s.handle deleteBlockTime) ∧
      (TimerBase.getDeleteBlockTime s = s.deleteBlockTime) ∧
      (MutexBase.isValid h = h.isSome) ∧
      (SemaphoreBase.isValid h = h.isSome) ∧
      (QueueBase.isValid h = h.isSome) ∧
      (EventGroupBase.isValid h = h.isSome) ∧
      (TimerBase.isValid h = h.isSome) ∧
      (StreamBufferBase.isValid h = h.isSome) := by
  intros
  repeat' apply And.intro
  all_goals rfl

/-- C4: for every wrapper object type, the constructor performs exactly one
kernel call — the create function for that object type — and stores the
handle the kernel returned in the object (for `Task`, together with the
boolean success flag of `xTaskCreate`); the destructor performs exactly one
kernel call — the matching delete function applied to the stored handle —
whenever a kernel object exists (non-`NULL` handle), binding the kernel
object's lifetime to the C++ object's lifetime.  (`TaskBase` and
`TimerBase` skip the delete call when the stored handle is `NULL`; the
other destructors pass even a `NULL` handle through, see C9.) -/
theorem C4_raii_create_delete :
    ∀ (T : Type) (o : Oracle T) (h : Handle) (s : TaskObj) (t : TimerObj)
      (maxCount initialCount N sizeofT size triggerLevel priority stackDepth : Nat)
      (length : UBaseType) (period deleteBlockTime : TickType) (autoReload : Bool),
      -- constructors: one create call, returned handle stored
      ((Mutex.construct : Prog T Handle).run o =
        ((o KOp.xSemaphoreCreateMutex).handleOut, [KOp.xSemaphoreCreateMutex])) ∧
      ((RecursiveMutex.construct : Prog T Handle).run o =
        ((o KOp.xSemaphoreCreateRecursiveMutex).handleOut,
         [KOp.xSemaphoreCreateRecursiveMutex])) ∧
      ((StaticMutex.construct : Prog T Handle).run o =
        ((o (KOp.xSemaphoreCreateMutexStatic MemberBuf.staticMutex)).handleOut,
         [KOp.xSemaphoreCreateMutexStatic MemberBuf.staticMutex])) ∧
      ((StaticRecursiveMutex.construct : Prog T Handle).run o =
        ((o (KOp.xSemaphoreCreateRecursiveMutexStatic
            MemberBuf.staticRecursiveMutex)).handleOut,
         [KOp.xSemaphoreCreateRecursiveMutexStatic MemberBuf.staticRecursiveMutex])) ∧
      ((BinarySemaphore.construct : Prog T Handle).run o =
        ((o KOp.xSemaphoreCreateBinary).handleOut, [KOp.xSemaphoreCreateBinary])) ∧
      ((CountingSemaphore.construct maxCount initialCount : Prog T Handle).run o =
        ((o (KOp.xSemaphoreCreateCounting maxCount initialCount)).handleOut,
         [KOp.xSemaphoreCreateCounting maxCount initialCount])) ∧
      ((StaticBinarySemaphore.construct : Prog T Handle).run o =
        ((o (KOp.xSemaphoreCreateBinaryStatic
            MemberBuf.staticBinarySemaphore)).handleOut,
         [KOp.xSemaphoreCreateBinaryStatic MemberBuf.staticBinarySemaphore])) ∧
      ((StaticCountingSemaphore.construct maxCount initialCount : Prog T Handle).run o =
        ((o (KOp.xSemaphoreCreateCountingStatic maxCount initialCount
            MemberBuf.staticCountingSemaphore)).handleOut,
         [KOp.xSemaphoreCreateCountingStatic maxCount initialCount
           MemberBuf.staticCountingSemaphore])) ∧
      ((Queue.construct length sizeofT : Prog T Handle).run o =
        ((o (KOp.xQueueCreate length sizeofT)).handleOut,
         [KOp.xQueueCreate length sizeofT])) ∧
      ((StaticQueue.construct N sizeofT : Prog T Handle).run o =
        ((o (KOp.xQueueCreateStatic N sizeofT MemberBuf.queueStorage
            MemberBuf.staticQueue)).handleOut,
         [KOp.xQueueCreateStatic N sizeofT MemberBuf.queueStorage
           MemberBuf.staticQueue])) ∧
      ((EventGroup.construct : Prog T Handle).run o =
        ((o KOp.xEventGroupCreate).handleOut, [KOp.xEventGroupCreate])) ∧
      ((StaticEventGroup.construct : Prog T Handle).run o =
        ((o (KOp.xEventGroupCreateStatic MemberBuf.staticEventGroup)).handleOut,
         [KOp.xEventGroupCreateStatic MemberBuf.staticEventGroup])) ∧
      ((Task.construct priority stackDepth : Prog T (TaskObj × Bool)).run o =
        ((TaskObj.mk ((o (KOp.xTaskCreate priority stackDepth)).handleOut) 0,
          (o (KOp.xTaskCreate priority stackDepth)).ret == pdPASS),
         [KOp.xTaskCreate priority stackDepth])) ∧
      ((StaticTask.construct N priority : Prog T TaskObj).run o =
        (TaskObj.mk ((o (KOp.xTaskCreateStatic priority N MemberBuf.taskStack
            MemberBuf.taskBuffer)).handleOut) 0,
         [KOp.xTaskCreateStatic priority N MemberBuf.taskStack MemberBuf.taskBuffer])) ∧
      ((Timer.construct period autoReload deleteBlockTime : Prog T TimerObj).run o =
        (TimerObj.mk ((o (KOp.xTimerCreate period
            (if autoReload then pdTRUE else pdFALSE))).handleOut) deleteBlockTime,
         [KOp.xTimerCreate period (if autoReload then pdTRUE else pdFALSE)])) ∧
      ((StaticTimer.construct period autoReload deleteBlockTime : Prog T TimerObj).run o =
        (TimerObj.mk ((o (KOp.xTimerCreateStatic period
            (if autoReload then pdTRUE else pdFALSE)
            MemberBuf.staticTimer)).handleOut) deleteBlockTime,
         [KOp.xTimerCreateStatic period (if autoReload then pdTRUE else pdFALSE)
           MemberBuf.staticTimer])) ∧
      ((StreamBuffer.construct size triggerLevel : Prog T Handle).run o =
        ((o (KOp.xStreamBufferCreate size triggerLevel)).handleOut,
         [KOp.xStreamBufferCreate size triggerLevel])) ∧
      ((StaticStreamBuffer.construct N triggerLevel : Prog T Handle).run o =
        ((o (KOp.xStreamBufferCreateStatic N triggerLevel
            MemberBuf.streamBufferStorage MemberBuf.staticStreamBuffer)).handleOut,
         [KOp.xStreamBufferCreateStatic N triggerLevel MemberBuf.streamBufferStorage
           MemberBuf.staticStreamBuffer])) ∧
      ((MessageBuffer.construct size : Prog T Handle).run o =
        ((o (KOp.xMessageBufferCreate size)).handleOut,
         [KOp.xMessageBufferCreate size])) ∧
      ((StaticMessageBuffer.construct N : Prog T Handle).run o =
        ((o (KOp.xMessageBufferCreateStatic N MemberBuf.messageBufferStorage
            MemberBuf.staticMessageBuffer)).handleOut,
         [KOp.xMessageBufferCreateStatic N MemberBuf.messageBufferStorage
           MemberBuf.staticMessageBuffer])) ∧
      -- destructors: the matching delete function on the stored handle
      ((MutexBase.destruct h : Prog T Unit).trace o = [KOp.vSemaphoreDelete h]) ∧
      ((SemaphoreBase.destruct h : Prog T Unit).trace o = [KOp.vSemaphoreDelete h]) ∧
      ((QueueBase.destruct h : Prog T Unit).trace o = [KOp.vQueueDelete h]) ∧
      ((EventGroupBase.destruct h : Prog T Unit).trace o = [KOp.vEventGroupDelete h]) ∧
      ((StreamBufferBase.destruct h : Prog T Unit).trace o =
        [KOp.vStreamBufferDelete h]) ∧
      ((MessageBufferBase.destruct h : Prog T Unit).trace o =
        [KOp.vMessageBufferDelete h]) ∧
      ((TaskBase.destruct s : Prog T Unit).trace o =
        if s.handle.isSome then [KOp.vTaskDelete s.handle] else []) ∧
      ((TimerBase.destruct t : Prog T TimerObj).trace o =
        if t.handle.isSome then [KOp.xTimerDelete t.handle t.deleteBlockTime]
        else []) := by
  intro T o h s t maxCount initialCount N sizeofT size triggerLevel priority
    stackDepth length period deleteBlockTime autoReload
  repeat' apply And.intro
  all_goals try rfl
  all_goals
    first
    | (by_cases hs : s.handle.isSome <;> simp [TaskBase.destruct, hs])
    | (by_cases ht : t.handle.isSome <;>
        simp [TimerBase.destruct, TimerBase.isValid, TimerBase.getDeleteBlockTime,
          TimerBase.deleteTimer, ht])

end FreeRTOSCpp
